import Mathlib

/-
  Verification development for the kalshi spread-arbitrage trading engine.

  Shallow embedding of the order-execution and risk-management core:
  position model (src/models/position.py), position tracker
  (src/portfolio/position_tracker.py), order manager
  (src/execution/order_manager.py), risk manager
  (src/portfolio/risk_manager.py) and execution engine
  (src/execution/execution_engine.py).

  Conventions of the embedding:
  - Python ints are modelled as Lean Int; Python floor division (the //
    operator) is Int.fdiv; Python abs is Int natAbs cast or the absolute
    value on Int.
  - Python float parameters carrying configured percentages are modelled
    as rationals; the float call int(x) (truncation toward zero) is pyInt.
  - Timestamps (entry_time, last_updated, the UTC-midnight daily reset)
    are elided: no claim treated here depends on wall-clock time.
  - Stateful classes become explicit state records; in-place mutation
    becomes state-returning functions.
-/

/-- OrderSide from src/api/mock_clients.py. -/
inductive OrderSide where
  | yes
  | no
deriving DecidableEq, Repr

/-- OrderAction from src/api/mock_clients.py. -/
inductive OrderAction where
  | buy
  | sell
deriving DecidableEq, Repr

/-- OrderStatus from src/api/mock_clients.py. -/
inductive OrderStatus where
  | resting
  | pending
  | executed
  | canceled
deriving DecidableEq, Repr

/-- PositionStatus from src/models/position.py. -/
inductive PositionStatus where
  | open
  | closing
  | closed
deriving DecidableEq, Repr

/-- FillResult from src/models/position.py.  The PARTIAL member is named
partialFill here (sound-alike names are avoided for lexical reasons). -/
inductive FillResult where
  | filled
  | partialFill
  | timeout
  | cancelled
  | error
deriving DecidableEq, Repr

/-- TrackedPosition from src/models/position.py (ticker is kept as the key
of the tracker map rather than inside the record; timestamps elided). -/
structure TrackedPosition where
  side : OrderSide
  quantity : Int
  avgEntryPrice : Int
  currentPrice : Int
  unrealizedPnl : Int
  realizedPnl : Int
  status : PositionStatus
deriving DecidableEq, Repr

/-- TrackedPosition._calculate_pnl: recompute unrealized PnL from the
current price when it is positive. -/
def calculatePositionPnl (p : TrackedPosition) : TrackedPosition :=
  if 0 < p.currentPrice then
    match p.side with
    | OrderSide.yes =>
        { p with unrealizedPnl := (p.currentPrice - p.avgEntryPrice) * p.quantity }
    | OrderSide.no =>
        { p with unrealizedPnl := (p.avgEntryPrice - p.currentPrice) * p.quantity }
  else p

/-- TrackedPosition dataclass construction followed by __post_init__
(which runs _calculate_pnl). -/
def mkTrackedPosition (side : OrderSide) (quantity avgEntryPrice currentPrice : Int) :
    TrackedPosition :=
  calculatePositionPnl
    { side := side
      quantity := quantity
      avgEntryPrice := avgEntryPrice
      currentPrice := currentPrice
      unrealizedPnl := 0
      realizedPnl := 0
      status := PositionStatus.open }

/-- TrackedPosition.add_to_position: weighted-average cost with Python
floor division, then _calculate_pnl. -/
def addToPosition (p : TrackedPosition) (qty price : Int) : TrackedPosition :=
  let totalCost := p.avgEntryPrice * p.quantity + price * qty
  let newQty := p.quantity + qty
  calculatePositionPnl
    { p with
        quantity := newQty
        avgEntryPrice := if 0 < newQty then totalCost.fdiv newQty else 0 }

/-- TrackedPosition.reduce_position: clamp to held quantity, realize PnL on
the clamped amount, mark CLOSED at zero, recompute PnL.  Returns the
updated position together with the realized PnL of this reduction. -/
def reducePosition (p : TrackedPosition) (qty price : Int) : TrackedPosition × Int :=
  let q := min qty p.quantity
  if q = 0 then (p, 0)
  else
    let pnl :=
      match p.side with
      | OrderSide.yes => (price - p.avgEntryPrice) * q
      | OrderSide.no => (p.avgEntryPrice - price) * q
    let p1 := { p with realizedPnl := p.realizedPnl + pnl, quantity := p.quantity - q }
    let p2 := if p1.quantity = 0 then { p1 with status := PositionStatus.closed } else p1
    (calculatePositionPnl p2, pnl)

/-- A fixed concrete position used by concrete instances below:
one YES contract held at average entry price 0. -/
def cexPosition : TrackedPosition :=
  { side := OrderSide.yes
    quantity := 1
    avgEntryPrice := 0
    currentPrice := 0
    unrealizedPnl := 0
    realizedPnl := 0
    status := PositionStatus.open }

/-- A second concrete position (one YES contract at average entry 2) used
by the exact-division witness below. -/
def exactPosition : TrackedPosition :=
  { side := OrderSide.yes
    quantity := 1
    avgEntryPrice := 2
    currentPrice := 0
    unrealizedPnl := 0
    realizedPnl := 0
    status := PositionStatus.open }

/-- C4 counterexample: the claimed associativity of weighted-average cost
fails under truncating division.  From one contract at average 0, adding
(1 contract at 0) then (2 contracts at 2) gives average 1, while the
single combined add of 3 contracts at (0*1+2*2)/(1+2) = 1 gives average 0. -/
theorem C4_counterexample :
    (addToPosition (addToPosition cexPosition 1 0) 2 2).avgEntryPrice = 1 ∧
    (addToPosition cexPosition (1 + 2) ((0 * 1 + 2 * 2 : Int).fdiv (1 + 2))).avgEntryPrice = 0 ∧
    ¬ ((addToPosition (addToPosition cexPosition 1 0) 2 2).avgEntryPrice =
       (addToPosition cexPosition (1 + 2) ((0 * 1 + 2 * 2 : Int).fdiv (1 + 2))).avgEntryPrice) := by
  refine ⟨rfl, rfl, ?_⟩
  decide

/-- _calculate_pnl leaves the average entry price unchanged. -/
theorem calculatePositionPnl_avgEntryPrice (p : TrackedPosition) :
    (calculatePositionPnl p).avgEntryPrice = p.avgEntryPrice := by
  rcases p with ⟨s, q, a, c, u, r, st⟩
  cases s <;> unfold calculatePositionPnl <;> split <;> rfl

/-- _calculate_pnl leaves the quantity unchanged. -/
theorem calculatePositionPnl_quantity (p : TrackedPosition) :
    (calculatePositionPnl p).quantity = p.quantity := by
  rcases p with ⟨s, q, a, c, u, r, st⟩
  cases s <;> unfold calculatePositionPnl <;> split <;> rfl

/-- _calculate_pnl leaves the status unchanged. -/
theorem calculatePositionPnl_status (p : TrackedPosition) :
    (calculatePositionPnl p).status = p.status := by
  rcases p with ⟨s, q, a, c, u, r, st⟩
  cases s <;> unfold calculatePositionPnl <;> split <;> rfl

/-- add_to_position adds the new contracts to the quantity. -/
theorem addToPosition_quantity (p : TrackedPosition) (qty price : Int) :
    (addToPosition p qty price).quantity = p.quantity + qty := by
  unfold addToPosition
  rw [calculatePositionPnl_quantity]

/-- add_to_position computes the floor-divided weighted-average cost. -/
theorem addToPosition_avgEntryPrice (p : TrackedPosition) (qty price : Int) :
    (addToPosition p qty price).avgEntryPrice =
      if 0 < p.quantity + qty then
        (p.avgEntryPrice * p.quantity + price * qty).fdiv (p.quantity + qty)
      else 0 := by
  unfold addToPosition
  rw [calculatePositionPnl_avgEntryPrice]

/-- C4 (amended): the two-step weighted-average cost agrees with the single
combined add whenever both intermediate truncating divisions are exact,
i.e. (q0+q1) divides (avg*q0 + p1*q1) and (q1+q2) divides (p1*q1 + p2*q2).
In general the truncation makes the two orders differ (see the
counterexample). -/
theorem C4_weighted_average_exact (p : TrackedPosition) (q1 q2 p1 p2 : Int)
    (h0 : 0 < p.quantity) (h1 : 0 < q1) (h2 : 0 < q2)
    (e1 : (p.quantity + q1) ∣ (p.avgEntryPrice * p.quantity + p1 * q1))
    (e2 : (q1 + q2) ∣ (p1 * q1 + p2 * q2)) :
    (addToPosition (addToPosition p q1 p1) q2 p2).avgEntryPrice =
      (addToPosition p (q1 + q2) ((p1 * q1 + p2 * q2).fdiv (q1 + q2))).avgEntryPrice := by
  obtain ⟨k1, hk1⟩ := e1
  obtain ⟨k2, hk2⟩ := e2
  have hq01 : (0 : Int) < p.quantity + q1 := by linarith
  have hq12 : (0 : Int) < q1 + q2 := by linarith
  have havg1 : (addToPosition p q1 p1).avgEntryPrice = k1 := by
    rw [addToPosition_avgEntryPrice, if_pos hq01, hk1,
      Int.mul_fdiv_cancel_left _ (ne_of_gt hq01)]
  have hpc : (p1 * q1 + p2 * q2).fdiv (q1 + q2) = k2 := by
    rw [hk2, Int.mul_fdiv_cancel_left _ (ne_of_gt hq12)]
  rw [addToPosition_avgEntryPrice (addToPosition p q1 p1), addToPosition_quantity, havg1,
    addToPosition_avgEntryPrice p (q1 + q2), hpc,
    if_pos (show (0 : Int) < p.quantity + q1 + q2 by linarith),
    if_pos (show (0 : Int) < p.quantity + (q1 + q2) by linarith)]
  congr 1
  · linear_combination hk2 - hk1
  · ring

/-- Witness for the amended C4 at a concrete input: one contract at average
2, then adds of (1 at 4) and (1 at 6); both divisions are exact. -/
theorem C4_weighted_average_exact_witness :
    (addToPosition (addToPosition exactPosition 1 4) 1 6).avgEntryPrice =
      (addToPosition exactPosition (1 + 1) ((4 * 1 + 6 * 1 : Int).fdiv (1 + 1))).avgEntryPrice :=
  C4_weighted_average_exact exactPosition 1 1 4 6 (by decide) (by decide) (by decide)
    ⟨3, by decide⟩ ⟨5, by decide⟩

/-- Position from src/api/mock_clients.py, restricted to the fields read by
PositionTracker.sync_positions. -/
structure ApiPosition where
  ticker : String
  marketExposure : Int
deriving DecidableEq, Repr

/-- PositionTracker state from src/portfolio/position_tracker.py: the
positions dict (an insertion-ordered association list, as a Python dict)
and the rolling daily PnL.  The UTC-midnight lazy reset of _daily_pnl is
elided (wall-clock time). -/
structure TrackerState where
  positions : List (String × TrackedPosition)
  dailyPnl : Int
deriving DecidableEq, Repr

/-- The empty tracker (PositionTracker.__init__). -/
def initTracker : TrackerState := { positions := [], dailyPnl := 0 }

/-- Python dict assignment self._positions[ticker] = p: replace the entry
if the key is present, otherwise append it. -/
def setPosition (ps : List (String × TrackedPosition)) (ticker : String)
    (p : TrackedPosition) : List (String × TrackedPosition) :=
  if (ps.lookup ticker).isSome then
    ps.map (fun e => if e.1 = ticker then (ticker, p) else e)
  else
    ps ++ [(ticker, p)]

/-- PositionTracker.get_position. -/
def getPosition (st : TrackerState) (ticker : String) : Option TrackedPosition :=
  st.positions.lookup ticker

/-- PositionTracker.update_position: create on positive change for an
unknown ticker; ignore non-positive changes for an unknown ticker; add on
the same side; reduce on the opposite side or on negative change, accruing
realized PnL into the daily PnL. -/
def updatePosition (st : TrackerState) (ticker : String) (side : OrderSide)
    (qtyChange price : Int) : TrackerState :=
  match st.positions.lookup ticker with
  | none =>
      if qtyChange ≤ 0 then st
      else
        { st with
            positions :=
              setPosition st.positions ticker
                (mkTrackedPosition side qtyChange price price) }
  | some tracked =>
      if 0 < qtyChange then
        if tracked.side ≠ side then
          let r := reducePosition tracked qtyChange price
          { positions := setPosition st.positions ticker r.1
            dailyPnl := st.dailyPnl + r.2 }
        else
          { st with
              positions :=
                setPosition st.positions ticker (addToPosition tracked qtyChange price) }
      else
        let r := reducePosition tracked |qtyChange| price
        let p2 :=
          if r.1.quantity = 0 then { r.1 with status := PositionStatus.closed } else r.1
        { positions := setPosition st.positions ticker p2
          dailyPnl := st.dailyPnl + r.2 }

/-- One iteration of the sync_positions loop over the API positions. -/
def syncOnePosition (ps : List (String × TrackedPosition)) (pos : ApiPosition) :
    List (String × TrackedPosition) :=
  if pos.marketExposure = 0 then
    match ps.lookup pos.ticker with
    | some tracked => setPosition ps pos.ticker { tracked with status := PositionStatus.closed }
    | none => ps
  else
    match ps.lookup pos.ticker with
    | some tracked =>
        if 0 < pos.marketExposure then
          setPosition ps pos.ticker
            { tracked with side := OrderSide.yes, quantity := pos.marketExposure }
        else
          setPosition ps pos.ticker
            { tracked with side := OrderSide.no, quantity := |pos.marketExposure| }
    | none =>
        setPosition ps pos.ticker
          (mkTrackedPosition
            (if 0 < pos.marketExposure then OrderSide.yes else OrderSide.no)
            |pos.marketExposure| 50 50)

/-- PositionTracker.sync_positions: fold the API positions through the
update loop, then mark CLOSED every tracked ticker absent from the API
list. -/
def syncPositions (st : TrackerState) (api : List ApiPosition) : TrackerState :=
  let ps := api.foldl syncOnePosition st.positions
  let apiTickers := api.map ApiPosition.ticker
  { st with
      positions :=
        ps.map (fun e =>
          if e.1 ∈ apiTickers then e
          else (e.1, { e.2 with status := PositionStatus.closed })) }

/-- The mutating PositionTracker operations named by the spec: a fill-driven
update or a sync against a list of API positions. -/
inductive TrackerOp where
  | update (ticker : String) (side : OrderSide) (qtyChange price : Int)
  | sync (api : List ApiPosition)
deriving Repr

/-- Apply one tracker operation. -/
def applyTrackerOp (st : TrackerState) (op : TrackerOp) : TrackerState :=
  match op with
  | TrackerOp.update t s q p => updatePosition st t s q p
  | TrackerOp.sync api => syncPositions st api

/-- Apply a sequence of tracker operations from the empty tracker. -/
def runTrackerOps (ops : List TrackerOp) : TrackerState :=
  ops.foldl applyTrackerOp initTracker

/-- The per-position direction of the spec invariant that the code
maintains: nonnegative quantity, and quantity zero forces status CLOSED. -/
def PosOk (p : TrackedPosition) : Prop :=
  0 ≤ p.quantity ∧ (p.quantity = 0 → p.status = PositionStatus.closed)

/-- The tracker-wide invariant: every tracked position satisfies PosOk. -/
def TrackerInv (st : TrackerState) : Prop :=
  ∀ e ∈ st.positions, PosOk e.2

/-- The operation sequence refuting the full iff: open 10 @ 40, close them
all @ 50 (position becomes CLOSED with quantity 0), then buy 5 more @ 50
on the same side. -/
def cexOps : List TrackerOp :=
  [TrackerOp.update "T" OrderSide.yes 10 40,
   TrackerOp.update "T" OrderSide.yes (-10) 50,
   TrackerOp.update "T" OrderSide.yes 5 50]

/-- C1 counterexample: after adding 5 contracts to a CLOSED (quantity 0)
position, the tracked position has quantity 5 but its status is still
CLOSED — add_to_position never reopens, so the claimed equivalence
(status == CLOSED iff quantity == 0) fails, and in particular adding to a
closed position does not restore it. -/
theorem C1_counterexample :
    (getPosition (runTrackerOps cexOps) "T").map TrackedPosition.quantity = some 5 ∧
    (getPosition (runTrackerOps cexOps) "T").map TrackedPosition.status =
      some PositionStatus.closed ∧
    ¬ (∀ p ∈ (runTrackerOps cexOps).positions,
        (p.2.status = PositionStatus.closed ↔ p.2.quantity = 0)) := by
  exact ⟨rfl, rfl, by decide⟩

/-- Membership in a dict after assignment: every entry either was already
present or is the newly written value. -/
theorem setPosition_mem (ps : List (String × TrackedPosition)) (ticker : String)
    (p : TrackedPosition) :
    ∀ e ∈ setPosition ps ticker p, e ∈ ps ∨ e.2 = p := by
  intro e he
  unfold setPosition at he
  split at he
  · rcases List.mem_map.mp he with ⟨a, ha, hae⟩
    by_cases hk : a.1 = ticker
    · right
      rw [if_pos hk] at hae
      rw [← hae]
    · left
      rw [if_neg hk] at hae
      rw [← hae]
      exact ha
  · rcases List.mem_append.mp he with h | h
    · exact Or.inl h
    · right
      rw [List.mem_singleton.mp h]

/-- A freshly created position with positive quantity satisfies PosOk. -/
theorem posOk_mk (side : OrderSide) (q a c : Int) (hq : 0 < q) :
    PosOk (mkTrackedPosition side q a c) := by
  unfold mkTrackedPosition PosOk
  rw [calculatePositionPnl_quantity]
  exact ⟨le_of_lt hq, fun h => absurd h (by simp; omega)⟩

/-- Adding a positive quantity to a PosOk position keeps PosOk (the sum is
strictly positive, so the CLOSED clause is vacuous). -/
theorem posOk_add (p : TrackedPosition) (qty price : Int) (hp : PosOk p) (hq : 0 < qty) :
    PosOk (addToPosition p qty price) := by
  unfold PosOk
  rw [addToPosition_quantity]
  constructor
  · linarith [hp.1]
  · intro h
    exact absurd h (by linarith [hp.1])

/-- reduce_position keeps the quantity nonnegative and marks CLOSED exactly
when the quantity reaches zero, hence preserves PosOk. -/
theorem posOk_reduce (p : TrackedPosition) (qty price : Int) (hp : PosOk p) :
    PosOk (reducePosition p qty price).1 := by
  unfold reducePosition
  by_cases hq : min qty p.quantity = 0
  · simpa [hq] using hp
  · have hle : min qty p.quantity ≤ p.quantity := min_le_right _ _
    unfold PosOk
    simp only [if_neg hq, calculatePositionPnl_quantity, calculatePositionPnl_status]
    by_cases hz : p.quantity - min qty p.quantity = 0
    · simp [hz]
    · simp only [if_neg hz]
      refine ⟨by omega, fun h => absurd h hz⟩

/-- Setting status to CLOSED (leaving quantity alone) preserves PosOk. -/
theorem posOk_close (p : TrackedPosition) (hp : PosOk p) :
    PosOk { p with status := PositionStatus.closed } :=
  ⟨hp.1, fun _ => rfl⟩

/-- A successful dict lookup exhibits the key-value pair as a member. -/
theorem lookup_mem {α β : Type} [BEq α] [LawfulBEq α] {l : List (α × β)} {k : α} {b : β}
    (h : l.lookup k = some b) : (k, b) ∈ l := by
  obtain ⟨l1, l2, hsplit, -⟩ := List.lookup_eq_some_iff.mp h
  rw [hsplit]
  exact List.mem_append.mpr (Or.inr (List.mem_cons_self _ _))

/-- update_position preserves the tracker invariant. -/
theorem updatePosition_inv (st : TrackerState) (t : String) (s : OrderSide)
    (qc pr : Int) (h : TrackerInv st) : TrackerInv (updatePosition st t s qc pr) := by
  intro e he
  rcases hlk : st.positions.lookup t with _ | tracked
  · have heq : updatePosition st t s qc pr =
        if qc ≤ 0 then st
        else { st with positions := setPosition st.positions t (mkTrackedPosition s qc pr pr) } := by
      unfold updatePosition
      rw [hlk]
    rw [heq] at he
    by_cases hqc : qc ≤ 0
    · rw [if_pos hqc] at he
      exact h e he
    · rw [if_neg hqc] at he
      rcases setPosition_mem st.positions t _ e he with hm | hm
      · exact h e hm
      · rw [hm]
        exact posOk_mk _ _ _ _ (by omega)
  · have htr : PosOk tracked := h (t, tracked) (lookup_mem hlk)
    have heq : updatePosition st t s qc pr =
        if 0 < qc then
          if tracked.side ≠ s then
            { positions := setPosition st.positions t (reducePosition tracked qc pr).1
              dailyPnl := st.dailyPnl + (reducePosition tracked qc pr).2 }
          else
            { st with positions := setPosition st.positions t (addToPosition tracked qc pr) }
        else
          { positions :=
              setPosition st.positions t
                (if (reducePosition tracked |qc| pr).1.quantity = 0 then
                  { (reducePosition tracked |qc| pr).1 with status := PositionStatus.closed }
                 else (reducePosition tracked |qc| pr).1)
            dailyPnl := st.dailyPnl + (reducePosition tracked |qc| pr).2 } := by
      unfold updatePosition
      rw [hlk]
    rw [heq] at he
    by_cases hqc : 0 < qc
    · rw [if_pos hqc] at he
      by_cases hside : tracked.side ≠ s
      · rw [if_pos hside] at he
        rcases setPosition_mem st.positions t _ e he with hm | hm
        · exact h e hm
        · rw [hm]
          exact posOk_reduce _ _ _ htr
      · rw [if_neg hside] at he
        rcases setPosition_mem st.positions t _ e he with hm | hm
        · exact h e hm
        · rw [hm]
          exact posOk_add _ _ _ htr hqc
    · rw [if_neg hqc] at he
      rcases setPosition_mem st.positions t _ e he with hm | hm
      · exact h e hm
      · rw [hm]
        have hr := posOk_reduce tracked |qc| pr htr
        by_cases hz : (reducePosition tracked |qc| pr).1.quantity = 0
        · rw [if_pos hz]
          exact posOk_close _ hr
        · rw [if_neg hz]
          exact hr

/-- One sync loop iteration preserves the per-entry invariant. -/
theorem syncOnePosition_inv (ps : List (String × TrackedPosition)) (pos : ApiPosition)
    (h : ∀ e ∈ ps, PosOk e.2) : ∀ e ∈ syncOnePosition ps pos, PosOk e.2 := by
  intro e he
  by_cases hz : pos.marketExposure = 0
  · rcases hlk : ps.lookup pos.ticker with _ | tracked
    · have heq : syncOnePosition ps pos = ps := by
        unfold syncOnePosition
        rw [if_pos hz, hlk]
      rw [heq] at he
      exact h e he
    · have heq : syncOnePosition ps pos =
          setPosition ps pos.ticker { tracked with status := PositionStatus.closed } := by
        unfold syncOnePosition
        rw [if_pos hz, hlk]
      rw [heq] at he
      rcases setPosition_mem ps pos.ticker _ e he with hm | hm
      · exact h e hm
      · rw [hm]
        exact posOk_close _ (h (pos.ticker, tracked) (lookup_mem hlk))
  · rcases hlk : ps.lookup pos.ticker with _ | tracked
    · have heq : syncOnePosition ps pos =
          setPosition ps pos.ticker
            (mkTrackedPosition (if 0 < pos.marketExposure then OrderSide.yes else OrderSide.no)
              |pos.marketExposure| 50 50) := by
        unfold syncOnePosition
        rw [if_neg hz, hlk]
      rw [heq] at he
      rcases setPosition_mem ps pos.ticker _ e he with hm | hm
      · exact h e hm
      · rw [hm]
        exact posOk_mk _ _ _ _ (abs_pos.mpr hz)
    · have heq : syncOnePosition ps pos =
          if 0 < pos.marketExposure then
            setPosition ps pos.ticker
              { tracked with side := OrderSide.yes, quantity := pos.marketExposure }
          else
            setPosition ps pos.ticker
              { tracked with side := OrderSide.no, quantity := |pos.marketExposure| } := by
        unfold syncOnePosition
        rw [if_neg hz, hlk]
      rw [heq] at he
      by_cases hp : 0 < pos.marketExposure
      · rw [if_pos hp] at he
        rcases setPosition_mem ps pos.ticker _ e he with hm | hm
        · exact h e hm
        · rw [hm]
          exact ⟨le_of_lt hp, fun hq => absurd (show pos.marketExposure = 0 from hq) hz⟩
      · rw [if_neg hp] at he
        rcases setPosition_mem ps pos.ticker _ e he with hm | hm
        · exact h e hm
        · rw [hm]
          exact ⟨abs_nonneg _, fun hq => absurd (abs_eq_zero.mp hq) hz⟩

/-- sync_positions preserves the tracker invariant. -/
theorem syncPositions_inv (st : TrackerState) (api : List ApiPosition)
    (h : TrackerInv st) : TrackerInv (syncPositions st api) := by
  have hfold : ∀ (l : List ApiPosition) (ps : List (String × TrackedPosition)),
      (∀ e ∈ ps, PosOk e.2) → ∀ e ∈ l.foldl syncOnePosition ps, PosOk e.2 := by
    intro l
    induction l with
    | nil => intro ps hps e he; exact hps e he
    | cons a l ih => intro ps hps e he; exact ih _ (syncOnePosition_inv ps a hps) e he
  intro e he
  rcases List.mem_map.mp he with ⟨a, ha, hae⟩
  have hpa := hfold api st.positions h a ha
  by_cases hm : a.1 ∈ api.map ApiPosition.ticker
  · rw [if_pos hm] at hae
    rw [← hae]
    exact hpa
  · rw [if_neg hm] at hae
    rw [← hae]
    exact posOk_close _ hpa

/-- C1 (amended): through every mutating PositionTracker operation
(update_position in all its branches and sync_positions), every tracked
position keeps a nonnegative quantity and quantity zero forces status
CLOSED.  The converse direction of the claimed equivalence is false: see
the counterexample, where adding to a CLOSED quantity-0 position leaves
the status CLOSED with positive quantity. -/
theorem C1_zero_quantity_closed (ops : List TrackerOp) : TrackerInv (runTrackerOps ops) := by
  have hstep : ∀ (l : List TrackerOp) (st : TrackerState),
      TrackerInv st → TrackerInv (l.foldl applyTrackerOp st) := by
    intro l
    induction l with
    | nil => intro st hst; exact hst
    | cons a l ih =>
        intro st hst
        refine ih _ ?_
        cases a with
        | update t s q p => exact updatePosition_inv st t s q p hst
        | sync api => exact syncPositions_inv st api hst
  exact hstep ops initTracker (by intro e he; cases he)

/-- Unfolding equation for update_position on a tracked ticker. -/
theorem updatePosition_some_eq (st : TrackerState) (t : String) (s : OrderSide)
    (qc pr : Int) (tracked : TrackedPosition)
    (hlk : st.positions.lookup t = some tracked) :
    updatePosition st t s qc pr =
      if 0 < qc then
        if tracked.side ≠ s then
          { positions := setPosition st.positions t (reducePosition tracked qc pr).1
            dailyPnl := st.dailyPnl + (reducePosition tracked qc pr).2 }
        else
          { st with positions := setPosition st.positions t (addToPosition tracked qc pr) }
      else
        { positions :=
            setPosition st.positions t
              (if (reducePosition tracked |qc| pr).1.quantity = 0 then
                { (reducePosition tracked |qc| pr).1 with status := PositionStatus.closed }
               else (reducePosition tracked |qc| pr).1)
          dailyPnl := st.dailyPnl + (reducePosition tracked |qc| pr).2 } := by
  unfold updatePosition
  rw [hlk]

/-- C10: update_position with a non-positive change on an untracked ticker
leaves the tracker unchanged; reductions are clamped to the held quantity
(reducing by at least the held quantity behaves exactly like reducing by
the held quantity, PnL included, both at the reduce_position level and
through update_position), and the resulting quantity is never negative. -/
theorem C10_reduce_clamped :
    (∀ (st : TrackerState) (t : String) (s : OrderSide) (qc pr : Int),
      st.positions.lookup t = none → qc ≤ 0 → updatePosition st t s qc pr = st) ∧
    (∀ (p : TrackedPosition) (qty price : Int), p.quantity ≤ qty →
      reducePosition p qty price = reducePosition p p.quantity price) ∧
    (∀ (p : TrackedPosition) (qty price : Int), 0 ≤ p.quantity →
      0 ≤ (reducePosition p qty price).1.quantity) ∧
    (∀ (st : TrackerState) (t : String) (s : OrderSide) (qc pr : Int)
        (tracked : TrackedPosition),
      st.positions.lookup t = some tracked → 0 ≤ tracked.quantity →
      qc ≤ -tracked.quantity →
      updatePosition st t s qc pr = updatePosition st t s (-tracked.quantity) pr) := by
  refine ⟨?_, ?_, ?_, ?_⟩
  · intro st t s qc pr hlk hqc
    unfold updatePosition
    rw [hlk, if_pos hqc]
  · intro p qty price h
    unfold reducePosition
    rw [min_eq_right h, min_self]
  · intro p qty price h0
    have hmin : min qty p.quantity ≤ p.quantity := min_le_right _ _
    unfold reducePosition
    by_cases hq : min qty p.quantity = 0
    · rw [if_pos hq]
      exact h0
    · rw [if_neg hq]
      show 0 ≤ (calculatePositionPnl _).quantity
      rw [calculatePositionPnl_quantity]
      by_cases hz : p.quantity - min qty p.quantity = 0
      · rw [if_pos hz]
        show 0 ≤ p.quantity - min qty p.quantity
        omega
      · rw [if_neg hz]
        show 0 ≤ p.quantity - min qty p.quantity
        omega
  · intro st t s qc pr tracked hlk hq0 hqc
    have e1 : reducePosition tracked |qc| pr = reducePosition tracked tracked.quantity pr := by
      have : tracked.quantity ≤ |qc| := by
        rw [abs_of_nonpos (by omega)]
        omega
      unfold reducePosition
      rw [min_eq_right this, min_self]
    have e2 : |(-tracked.quantity)| = tracked.quantity := by
      rw [abs_neg, abs_of_nonneg hq0]
    rw [updatePosition_some_eq st t s qc pr tracked hlk,
      updatePosition_some_eq st t s (-tracked.quantity) pr tracked hlk,
      if_neg (by omega : ¬ (0 : Int) < qc),
      if_neg (by omega : ¬ (0 : Int) < -tracked.quantity), e2, e1]

/-- A one-position tracker used by the C10 witness. -/
def witnessTracker : TrackerState :=
  runTrackerOps [TrackerOp.update "T" OrderSide.yes 10 40]

/-- Witness for C10 at concrete inputs: an ignored reduction on an unknown
ticker, a clamped over-reduction of a 1-contract position, and an
over-reduction through update_position on a 10-contract position. -/
theorem C10_reduce_clamped_witness :
    updatePosition initTracker "X" OrderSide.yes (-3) 10 = initTracker ∧
    reducePosition cexPosition 5 7 = reducePosition cexPosition cexPosition.quantity 7 ∧
    0 ≤ (reducePosition cexPosition 5 7).1.quantity ∧
    updatePosition witnessTracker "T" OrderSide.yes (-15) 50 =
      updatePosition witnessTracker "T" OrderSide.yes
        (-(mkTrackedPosition OrderSide.yes 10 40 40).quantity) 50 :=
  ⟨C10_reduce_clamped.1 initTracker "X" OrderSide.yes (-3) 10 rfl (by decide),
   C10_reduce_clamped.2.1 cexPosition 5 7 (by decide),
   C10_reduce_clamped.2.2.1 cexPosition 5 7 (by decide),
   C10_reduce_clamped.2.2.2 witnessTracker "T" OrderSide.yes (-15) 50
     (mkTrackedPosition OrderSide.yes 10 40 40) (by decide) (by decide) (by decide)⟩

/-- Order from src/api/mock_clients.py, restricted to the fields the order
manager reads. -/
structure ApiOrder where
  count : Int
  filledCount : Int
  remainingCount : Int
  status : OrderStatus
deriving DecidableEq, Repr

/-- Order dataclass construction: __post_init__ always recomputes
remaining_count = count - filled_count. -/
def mkApiOrder (count filledCount : Int) (status : OrderStatus) : ApiOrder :=
  { count := count
    filledCount := filledCount
    remainingCount := count - filledCount
    status := status }

/-- Well-formedness the mock REST client maintains for its orders: the
counts sum to the order size, and EXECUTED means nothing remains. -/
def ApiOrderWf (o : ApiOrder) : Prop :=
  o.filledCount + o.remainingCount = o.count ∧
  (o.status = OrderStatus.executed → o.remainingCount = 0)

instance (o : ApiOrder) : Decidable (ApiOrderWf o) := by
  unfold ApiOrderWf
  infer_instance

/-- MockRestClient.simulate_fill restricted to its effect on the order
itself (position bookkeeping elided).  A Python falsy fill_count (None or
0) means fill the whole remainder. -/
def simulateFillOrder (o : ApiOrder) (fillCount : Option Int) : ApiOrder :=
  if o.status ≠ OrderStatus.resting then o
  else
    let requested :=
      match fillCount with
      | some c => if c = 0 then o.remainingCount else c
      | none => o.remainingCount
    let c := min requested o.remainingCount
    let o1 := { o with filledCount := o.filledCount + c, remainingCount := o.remainingCount - c }
    if o1.remainingCount = 0 then { o1 with status := OrderStatus.executed } else o1

/-- MockRestClient.cancel_order restricted to its effect on the order. -/
def cancelApiOrder (o : ApiOrder) : ApiOrder :=
  if o.status = OrderStatus.executed ∨ o.status = OrderStatus.canceled then o
  else { o with status := OrderStatus.canceled }

/-- One simulate_fill counter update (fill amount already resolved to c)
preserves order well-formedness on a resting order. -/
theorem simulateFillStep_wf (o : ApiOrder) (c : Int) (h : ApiOrderWf o)
    (hs : o.status = OrderStatus.resting) :
    ApiOrderWf
      (if o.remainingCount - c = 0 then
        { o with
            filledCount := o.filledCount + c
            remainingCount := o.remainingCount - c
            status := OrderStatus.executed }
      else
        { o with filledCount := o.filledCount + c, remainingCount := o.remainingCount - c }) := by
  have hsum := h.1
  by_cases hz : o.remainingCount - c = 0
  · rw [if_pos hz]
    refine ⟨?_, fun _ => hz⟩
    show o.filledCount + c + (o.remainingCount - c) = o.count
    omega
  · rw [if_neg hz]
    refine ⟨?_, fun hx => ?_⟩
    · show o.filledCount + c + (o.remainingCount - c) = o.count
      omega
    · exact absurd (show o.status = OrderStatus.executed from hx) (by rw [hs]; decide)

/-- The REST client's order states are well formed: creation, simulated
fills and cancellation all preserve ApiOrderWf (creation establishes it). -/
theorem apiOrderWf_client (count : Int) (o : ApiOrder) (fc : Option Int)
    (h : ApiOrderWf o) :
    ApiOrderWf (mkApiOrder count 0 OrderStatus.resting) ∧
    ApiOrderWf (simulateFillOrder o fc) ∧
    ApiOrderWf (cancelApiOrder o) := by
  refine ⟨⟨by show (0 : Int) + (count - 0) = count; omega,
      fun hx => absurd (show OrderStatus.resting = OrderStatus.executed from hx) (by decide)⟩,
    ?_, ?_⟩
  · unfold simulateFillOrder
    by_cases hs : o.status ≠ OrderStatus.resting
    · rw [if_pos hs]
      exact h
    · rw [if_neg hs]
      push_neg at hs
      exact simulateFillStep_wf o _ h hs
  · unfold cancelApiOrder
    by_cases hs : o.status = OrderStatus.executed ∨ o.status = OrderStatus.canceled
    · rw [if_pos hs]
      exact h
    · rw [if_neg hs]
      refine ⟨h.1, fun hx => ?_⟩
      exact absurd (show OrderStatus.canceled = OrderStatus.executed from hx) (by decide)

/-- ManagedOrder from src/models/position.py, restricted to the fields the
fill/update notifications and wait_for_fill mutate. -/
structure ManagedOrder where
  count : Int
  filledCount : Int
  remainingCount : Int
  status : String
deriving DecidableEq, Repr

/-- OrderManager.place_limit_order: the locally created ManagedOrder. -/
def placeManagedOrder (count : Int) : ManagedOrder :=
  { count := count
    filledCount := 0
    remainingCount := count
    status := "resting" }

/-- The .value string of an OrderStatus enum member. -/
def statusValue : OrderStatus → String
  | OrderStatus.resting => "resting"
  | OrderStatus.pending => "pending"
  | OrderStatus.executed => "executed"
  | OrderStatus.canceled => "canceled"

/-- The possible outcomes of the wait in OrderManager.wait_for_fill: woken
by a notification, or timed out; each followed by one authoritative
get_order read. -/
inductive WaitOutcome where
  | woke (read : Option ApiOrder)
  | timedOut (read : Option ApiOrder)
deriving Repr

/-- OrderManager.wait_for_fill: the classification and the reconciliation
write on the local ManagedOrder.  known is whether the order id is in the
manager's table (the unknown case returns ERROR before any wait). -/
def waitForFill (known : Bool) (m : ManagedOrder) (outcome : WaitOutcome) :
    FillResult × ManagedOrder :=
  if ¬known then (FillResult.error, m)
  else
    match outcome with
    | WaitOutcome.woke none => (FillResult.error, m)
    | WaitOutcome.woke (some o) =>
        if o.status = OrderStatus.executed then
          (FillResult.filled,
            { m with status := "executed", filledCount := o.filledCount, remainingCount := 0 })
        else if o.status = OrderStatus.canceled then
          if 0 < o.filledCount then (FillResult.partialFill, { m with status := "cancelled" })
          else (FillResult.cancelled, { m with status := "cancelled" })
        else (FillResult.error, m)
    | WaitOutcome.timedOut none => (FillResult.timeout, m)
    | WaitOutcome.timedOut (some o) =>
        if 0 < o.filledCount then
          (FillResult.partialFill,
            { m with filledCount := o.filledCount, remainingCount := o.remainingCount })
        else (FillResult.timeout, m)

/-- wait_for_fill on an order id unknown to the manager: ERROR, no write. -/
theorem waitForFill_unknown (m : ManagedOrder) (outcome : WaitOutcome) :
    waitForFill false m outcome = (FillResult.error, m) := by
  unfold waitForFill
  rw [if_pos (by simp)]

/-- wait_for_fill woken, authoritative order gone: ERROR, no write. -/
theorem waitForFill_woke_none (m : ManagedOrder) :
    waitForFill true m (WaitOutcome.woke none) = (FillResult.error, m) := by
  unfold waitForFill
  rw [if_neg (by simp)]

/-- wait_for_fill woken with an authoritative read: the classification
cascade of the source. -/
theorem waitForFill_woke_some (m : ManagedOrder) (o : ApiOrder) :
    waitForFill true m (WaitOutcome.woke (some o)) =
      if o.status = OrderStatus.executed then
        (FillResult.filled,
          { m with status := "executed", filledCount := o.filledCount, remainingCount := 0 })
      else if o.status = OrderStatus.canceled then
        if 0 < o.filledCount then (FillResult.partialFill, { m with status := "cancelled" })
        else (FillResult.cancelled, { m with status := "cancelled" })
      else (FillResult.error, m) := by
  unfold waitForFill
  rw [if_neg (by simp)]

/-- wait_for_fill timed out, authoritative order gone: TIMEOUT, no write. -/
theorem waitForFill_timedOut_none (m : ManagedOrder) :
    waitForFill true m (WaitOutcome.timedOut none) = (FillResult.timeout, m) := by
  unfold waitForFill
  rw [if_neg (by simp)]

/-- wait_for_fill timed out with an authoritative read: PARTIAL with a
count write when anything filled, else TIMEOUT. -/
theorem waitForFill_timedOut_some (m : ManagedOrder) (o : ApiOrder) :
    waitForFill true m (WaitOutcome.timedOut (some o)) =
      if 0 < o.filledCount then
        (FillResult.partialFill,
          { m with filledCount := o.filledCount, remainingCount := o.remainingCount })
      else (FillResult.timeout, m) := by
  unfold waitForFill
  rw [if_neg (by simp)]

/-- The writes that can hit a ManagedOrder after placement: a fill
notification, an order-update notification, the local cancel mark, and the
two wait_for_fill reconciliation writes. -/
inductive OrderEvent where
  | fillNotice (count : Int)
  | updateNotice (o : ApiOrder)
  | cancelMark
  | waitWake (read : Option ApiOrder)
  | waitTimeout (read : Option ApiOrder)
deriving Repr

/-- Apply one event to a ManagedOrder (the order manager's handlers
_handle_fill, _handle_order_update, cancel_order, and wait_for_fill). -/
def applyOrderEvent (m : ManagedOrder) (e : OrderEvent) : ManagedOrder :=
  match e with
  | OrderEvent.fillNotice c =>
      let m1 := { m with filledCount := m.filledCount + c, remainingCount := m.remainingCount - c }
      if m1.remainingCount ≤ 0 then { m1 with status := "executed" } else m1
  | OrderEvent.updateNotice o =>
      { m with
          filledCount := o.filledCount
          remainingCount := o.remainingCount
          status := statusValue o.status }
  | OrderEvent.cancelMark => { m with status := "cancelled" }
  | OrderEvent.waitWake r => (waitForFill true m (WaitOutcome.woke r)).2
  | OrderEvent.waitTimeout r => (waitForFill true m (WaitOutcome.timedOut r)).2

/-- The side conditions the claim grants on each event: order-update events
carry an Order whose counts sum to its size and which is the same order
(same count); the authoritative reads of wait_for_fill return well-formed
orders of the same count (established for the REST client by
apiOrderWf_client). -/
def EventOk (count : Int) : OrderEvent → Prop
  | OrderEvent.fillNotice _ => True
  | OrderEvent.updateNotice o => o.filledCount + o.remainingCount = o.count ∧ o.count = count
  | OrderEvent.cancelMark => True
  | OrderEvent.waitWake none => True
  | OrderEvent.waitWake (some o) => ApiOrderWf o ∧ o.count = count
  | OrderEvent.waitTimeout none => True
  | OrderEvent.waitTimeout (some o) => ApiOrderWf o ∧ o.count = count

instance (count : Int) (e : OrderEvent) : Decidable (EventOk count e) := by
  cases e with
  | fillNotice k => exact isTrue trivial
  | updateNotice o => unfold EventOk; infer_instance
  | cancelMark => exact isTrue trivial
  | waitWake r => cases r <;> (unfold EventOk; infer_instance)
  | waitTimeout r => cases r <;> (unfold EventOk; infer_instance)

/-- The ManagedOrder invariant of the claim. -/
def ManagedInv (m : ManagedOrder) : Prop :=
  m.filledCount + m.remainingCount = m.count

instance (m : ManagedOrder) : Decidable (ManagedInv m) := by
  unfold ManagedInv
  infer_instance

/-- One event preserves the invariant and the order size. -/
theorem applyOrderEvent_inv (m : ManagedOrder) (e : OrderEvent)
    (hok : EventOk m.count e) (hinv : ManagedInv m) :
    ManagedInv (applyOrderEvent m e) ∧ (applyOrderEvent m e).count = m.count := by
  have hsum : m.filledCount + m.remainingCount = m.count := hinv
  cases e with
  | fillNotice c =>
      constructor
      · show ManagedInv
            (if m.remainingCount - c ≤ 0 then
              { m with
                  filledCount := m.filledCount + c
                  remainingCount := m.remainingCount - c
                  status := "executed" }
            else
              { m with filledCount := m.filledCount + c, remainingCount := m.remainingCount - c })
        by_cases hz : m.remainingCount - c ≤ 0
        · rw [if_pos hz]
          show m.filledCount + c + (m.remainingCount - c) = m.count
          omega
        · rw [if_neg hz]
          show m.filledCount + c + (m.remainingCount - c) = m.count
          omega
      · show (if m.remainingCount - c ≤ 0 then
              ({ m with
                  filledCount := m.filledCount + c
                  remainingCount := m.remainingCount - c
                  status := "executed" } : ManagedOrder)
            else
              { m with
                  filledCount := m.filledCount + c
                  remainingCount := m.remainingCount - c }).count = m.count
        by_cases hz : m.remainingCount - c ≤ 0
        · rw [if_pos hz]
        · rw [if_neg hz]
  | updateNotice o =>
      have hok2 : o.filledCount + o.remainingCount = o.count ∧ o.count = m.count := hok
      exact ⟨show o.filledCount + o.remainingCount = m.count by omega, rfl⟩
  | cancelMark => exact ⟨hinv, rfl⟩
  | waitWake r =>
      cases r with
      | none =>
          show ManagedInv (waitForFill true m (WaitOutcome.woke none)).2 ∧
            (waitForFill true m (WaitOutcome.woke none)).2.count = m.count
          rw [waitForFill_woke_none]
          exact ⟨hinv, rfl⟩
      | some o =>
          have hok2 : ApiOrderWf o ∧ o.count = m.count := hok
          obtain ⟨⟨hosum, hexec⟩, hcount⟩ := hok2
          show ManagedInv (waitForFill true m (WaitOutcome.woke (some o))).2 ∧
            (waitForFill true m (WaitOutcome.woke (some o))).2.count = m.count
          rw [waitForFill_woke_some]
          by_cases he : o.status = OrderStatus.executed
          · rw [if_pos he]
            have h0 := hexec he
            exact ⟨show o.filledCount + 0 = m.count by omega, rfl⟩
          · rw [if_neg he]
            by_cases hc : o.status = OrderStatus.canceled
            · rw [if_pos hc]
              by_cases hf : 0 < o.filledCount
              · rw [if_pos hf]
                exact ⟨hinv, rfl⟩
              · rw [if_neg hf]
                exact ⟨hinv, rfl⟩
            · rw [if_neg hc]
              exact ⟨hinv, rfl⟩
  | waitTimeout r =>
      cases r with
      | none =>
          show ManagedInv (waitForFill true m (WaitOutcome.timedOut none)).2 ∧
            (waitForFill true m (WaitOutcome.timedOut none)).2.count = m.count
          rw [waitForFill_timedOut_none]
          exact ⟨hinv, rfl⟩
      | some o =>
          have hok2 : ApiOrderWf o ∧ o.count = m.count := hok
          obtain ⟨⟨hosum, hexec⟩, hcount⟩ := hok2
          show ManagedInv (waitForFill true m (WaitOutcome.timedOut (some o))).2 ∧
            (waitForFill true m (WaitOutcome.timedOut (some o))).2.count = m.count
          rw [waitForFill_timedOut_some]
          by_cases hf : 0 < o.filledCount
          · rw [if_pos hf]
            exact ⟨show o.filledCount + o.remainingCount = m.count by omega, rfl⟩
          · rw [if_neg hf]
            exact ⟨hinv, rfl⟩

/-- C3: starting from placement, any sequence of fill notifications,
order-update notifications carrying a sum-correct Order of the same size,
cancel marks, and wait_for_fill reconciliation writes against well-formed
authoritative reads keeps filledCount + remainingCount == count on the
ManagedOrder. -/
theorem C3_managed_order_sum (count : Int) (events : List OrderEvent)
    (h : ∀ e ∈ events, EventOk count e) :
    ManagedInv (events.foldl applyOrderEvent (placeManagedOrder count)) := by
  have hgen : ∀ (l : List OrderEvent) (m : ManagedOrder), m.count = count →
      ManagedInv m → (∀ e ∈ l, EventOk count e) →
      ManagedInv (l.foldl applyOrderEvent m) := by
    intro l
    induction l with
    | nil => intro m _ hm _; exact hm
    | cons a l ih =>
        intro m hmc hm hl
        have hok : EventOk m.count a := by
          rw [hmc]
          exact hl a (List.mem_cons_self _ _)
        have step := applyOrderEvent_inv m a hok hm
        exact ih (applyOrderEvent m a) (by rw [step.2, hmc]) step.1
          (fun e he => hl e (List.mem_cons_of_mem _ he))
  exact hgen events (placeManagedOrder count) rfl
    (show (0 : Int) + count = count by omega) h

/-- Witness for C3: a concrete event sequence on a 10-contract order —
partial fill of 4, an order-update to 6 filled, a timeout reconciliation at
7 filled, then a wake reconciliation against the fully executed order. -/
theorem C3_managed_order_sum_witness :
    (∀ e ∈ [OrderEvent.fillNotice 4,
            OrderEvent.updateNotice (mkApiOrder 10 6 OrderStatus.resting),
            OrderEvent.waitTimeout (some (mkApiOrder 10 7 OrderStatus.resting)),
            OrderEvent.waitWake (some (mkApiOrder 10 10 OrderStatus.executed))],
        EventOk 10 e) ∧
    ManagedInv
      ([OrderEvent.fillNotice 4,
        OrderEvent.updateNotice (mkApiOrder 10 6 OrderStatus.resting),
        OrderEvent.waitTimeout (some (mkApiOrder 10 7 OrderStatus.resting)),
        OrderEvent.waitWake (some (mkApiOrder 10 10 OrderStatus.executed))].foldl
          applyOrderEvent (placeManagedOrder 10)) :=
  ⟨by decide, C3_managed_order_sum 10 _ (by decide)⟩

/-- C7: wait_for_fill on an unknown order id returns ERROR immediately with
no state write; on wake it classifies the authoritative re-read as FILLED
when EXECUTED, PARTIAL when CANCELED with positive fill, CANCELLED when
CANCELED with zero fill, ERROR when the order cannot be found; on timeout
one authoritative read yields PARTIAL when anything filled, else TIMEOUT
(also when the order cannot be found). -/
theorem C7_wait_classification :
    (∀ (m : ManagedOrder) (outcome : WaitOutcome),
      waitForFill false m outcome = (FillResult.error, m)) ∧
    (∀ m : ManagedOrder,
      (waitForFill true m (WaitOutcome.woke none)).1 = FillResult.error) ∧
    (∀ (m : ManagedOrder) (o : ApiOrder), o.status = OrderStatus.executed →
      (waitForFill true m (WaitOutcome.woke (some o))).1 = FillResult.filled) ∧
    (∀ (m : ManagedOrder) (o : ApiOrder), o.status = OrderStatus.canceled →
      0 < o.filledCount →
      (waitForFill true m (WaitOutcome.woke (some o))).1 = FillResult.partialFill) ∧
    (∀ (m : ManagedOrder) (o : ApiOrder), o.status = OrderStatus.canceled →
      o.filledCount = 0 →
      (waitForFill true m (WaitOutcome.woke (some o))).1 = FillResult.cancelled) ∧
    (∀ (m : ManagedOrder) (o : ApiOrder), 0 < o.filledCount →
      (waitForFill true m (WaitOutcome.timedOut (some o))).1 = FillResult.partialFill) ∧
    (∀ (m : ManagedOrder) (o : ApiOrder), o.filledCount ≤ 0 →
      (waitForFill true m (WaitOutcome.timedOut (some o))).1 = FillResult.timeout) ∧
    (∀ m : ManagedOrder,
      (waitForFill true m (WaitOutcome.timedOut none)).1 = FillResult.timeout) := by
  refine ⟨waitForFill_unknown, ?_, ?_, ?_, ?_, ?_, ?_, ?_⟩
  · intro m
    rw [waitForFill_woke_none]
  · intro m o he
    rw [waitForFill_woke_some, if_pos he]
  · intro m o hc hf
    rw [waitForFill_woke_some, if_neg (by rw [hc]; decide), if_pos hc, if_pos hf]
  · intro m o hc hf
    rw [waitForFill_woke_some, if_neg (by rw [hc]; decide), if_pos hc,
      if_neg (by omega : ¬ (0 : Int) < o.filledCount)]
  · intro m o hf
    rw [waitForFill_timedOut_some, if_pos hf]
  · intro m o hf
    rw [waitForFill_timedOut_some, if_neg (by omega : ¬ (0 : Int) < o.filledCount)]
  · intro m
    rw [waitForFill_timedOut_none]

/-- Witness for C7 at concrete inputs: a 5-contract order in every branch
of the classification. -/
theorem C7_wait_classification_witness :
    waitForFill false (placeManagedOrder 5) (WaitOutcome.woke none) =
      (FillResult.error, placeManagedOrder 5) ∧
    (waitForFill true (placeManagedOrder 5) (WaitOutcome.woke none)).1 = FillResult.error ∧
    (waitForFill true (placeManagedOrder 5)
      (WaitOutcome.woke (some (mkApiOrder 5 5 OrderStatus.executed)))).1 = FillResult.filled ∧
    (waitForFill true (placeManagedOrder 5)
      (WaitOutcome.woke (some (mkApiOrder 5 2 OrderStatus.canceled)))).1 =
        FillResult.partialFill ∧
    (waitForFill true (placeManagedOrder 5)
      (WaitOutcome.woke (some (mkApiOrder 5 0 OrderStatus.canceled)))).1 =
        FillResult.cancelled ∧
    (waitForFill true (placeManagedOrder 5)
      (WaitOutcome.timedOut (some (mkApiOrder 5 3 OrderStatus.resting)))).1 =
        FillResult.partialFill ∧
    (waitForFill true (placeManagedOrder 5)
      (WaitOutcome.timedOut (some (mkApiOrder 5 0 OrderStatus.resting)))).1 =
        FillResult.timeout ∧
    (waitForFill true (placeManagedOrder 5) (WaitOutcome.timedOut none)).1 =
      FillResult.timeout :=
  ⟨C7_wait_classification.1 (placeManagedOrder 5) (WaitOutcome.woke none),
   C7_wait_classification.2.1 (placeManagedOrder 5),
   C7_wait_classification.2.2.1 (placeManagedOrder 5) _ (by decide),
   C7_wait_classification.2.2.2.1 (placeManagedOrder 5) _ (by decide) (by decide),
   C7_wait_classification.2.2.2.2.1 (placeManagedOrder 5) _ (by decide) (by decide),
   C7_wait_classification.2.2.2.2.2.1 (placeManagedOrder 5) _ (by decide),
   C7_wait_classification.2.2.2.2.2.2.1 (placeManagedOrder 5) _ (by decide),
   C7_wait_classification.2.2.2.2.2.2.2 (placeManagedOrder 5)⟩

/-- The Python builtin int() on a float value: truncation toward zero,
modelled on the rationals. -/
def pyInt (q : Rat) : Int := if 0 ≤ q then ⌊q⌋ else ⌈q⌉

/-- Display-only stand-in for the two-decimal dollar rendering used inside
reason strings; no property below depends on its digits, only on the fixed
prefix around it. -/
def dollarString (cents : Int) : String := toString cents

/-- SpreadOpportunity from src/api/mock_clients.py, the fields the risk
manager and engine read. -/
structure SpreadOpportunity where
  ticker : String
  side : OrderSide
  bidPrice : Int
  askPrice : Int
  spreadCents : Int
deriving DecidableEq, Repr

/-- StrategyParams fields consumed by the risk manager
(config/strategy_params.py). -/
structure RiskParams where
  maxPositionSize : Int
  maxConcurrentPositions : Int
  riskPerTradePct : Rat
  dailyLossLimitPct : Rat
deriving DecidableEq, Repr

/-- RiskManager state: initial balance snapshot, the halt flag and its
free-text reason. -/
structure RiskState where
  initialBalance : Int
  tradingHalted : Bool
  haltReason : String
deriving DecidableEq, Repr

/-- The duplicate-exposure test of check (3): an existing position with
positive quantity. -/
def hasNonzeroPosition : Option TrackedPosition → Bool
  | some p => decide (0 < p.quantity)
  | none => false

/-- daily_loss_limit = int(initial_balance * daily_loss_limit_pct). -/
def dailyLossLimitOf (params : RiskParams) (st : RiskState) : Int :=
  pyInt ((st.initialBalance : Rat) * params.dailyLossLimitPct)

/-- The latched daily-loss halt reason string. -/
def dailyLossReason (limit : Int) : String :=
  "Daily loss limit ($" ++ dollarString limit ++ ") exceeded"

/-- RiskManager.can_open_position: the six gates in source order, returning
(allowed, reason, possibly-latched state).  The open-position count, the
tracked position for this ticker, the available balance and the daily PnL
are the values the code reads from its collaborators at call time. -/
def canOpenPosition (params : RiskParams) (st : RiskState) (opp : SpreadOpportunity)
    (size openCount : Int) (existing : Option TrackedPosition)
    (availableBalance dailyPnl : Int) : Bool × String × RiskState :=
  if st.tradingHalted then
    (false, "Trading halted: " ++ st.haltReason, st)
  else if params.maxConcurrentPositions ≤ openCount then
    (false,
      "Max concurrent positions (" ++ toString params.maxConcurrentPositions ++ ") reached", st)
  else if hasNonzeroPosition existing then
    (false, "Already have position in " ++ opp.ticker, st)
  else if params.maxPositionSize < size then
    (false,
      "Size " ++ toString size ++ " exceeds max position size (" ++
        toString params.maxPositionSize ++ ")", st)
  else if availableBalance < opp.bidPrice * size then
    (false,
      "Insufficient balance. Need $" ++ dollarString (opp.bidPrice * size) ++ ", have $" ++
        dollarString availableBalance, st)
  else if dailyPnl < 0 ∧ dailyLossLimitOf params st ≤ |dailyPnl| then
    (false, dailyLossReason (dailyLossLimitOf params st),
      { st with
          tradingHalted := true
          haltReason := dailyLossReason (dailyLossLimitOf params st) })
  else
    (true, "OK", st)

/-- RiskManager.halt_trading. -/
def haltTrading (st : RiskState) (reason : String) : RiskState :=
  { st with tradingHalted := true, haltReason := reason }

/-- The Python str.startswith test, expressed on the character data (same
semantics as String.startsWith, stated in a proof-friendly form). -/
def pyStartsWith (s pre : String) : Bool :=
  pre.data.isPrefixOf s.data

/-- RiskManager.resume_trading: refuses to clear when the current reason
starts with the literal text Daily loss. -/
def resumeTrading (st : RiskState) : RiskState :=
  if pyStartsWith st.haltReason "Daily loss" then st
  else { st with tradingHalted := false, haltReason := "" }

/-- The latched daily-loss reason always starts with Daily loss, whatever
the rendered limit. -/
theorem dailyLossReason_startsWith (limit : Int) :
    pyStartsWith (dailyLossReason limit) "Daily loss" = true := by
  unfold pyStartsWith dailyLossReason
  rw [String.data_append, String.data_append, List.isPrefixOf_iff_prefix]
  have h1 : "Daily loss".data <+: "Daily loss limit ($".data := by decide
  exact (h1.trans (List.prefix_append _ _)).trans (List.prefix_append _ _)

/-- RiskManager.reset_daily_limits. -/
def resetDailyLimits (st : RiskState) : RiskState :=
  { st with tradingHalted := false, haltReason := "" }

/-- Gate 1 of can_open_position: a halted state rejects with the halt
reason, whatever the other inputs. -/
theorem canOpen_halted (params : RiskParams) (st : RiskState) (opp : SpreadOpportunity)
    (size openCount : Int) (existing : Option TrackedPosition) (avail dpnl : Int)
    (h1 : st.tradingHalted = true) :
    canOpenPosition params st opp size openCount existing avail dpnl =
      (false, "Trading halted: " ++ st.haltReason, st) := by
  unfold canOpenPosition
  rw [if_pos h1]

/-- Gate 2 of can_open_position: concurrent-position limit. -/
theorem canOpen_maxConcurrent (params : RiskParams) (st : RiskState) (opp : SpreadOpportunity)
    (size openCount : Int) (existing : Option TrackedPosition) (avail dpnl : Int)
    (h1 : st.tradingHalted = false) (h2 : params.maxConcurrentPositions ≤ openCount) :
    canOpenPosition params st opp size openCount existing avail dpnl =
      (false,
        "Max concurrent positions (" ++ toString params.maxConcurrentPositions ++ ") reached",
        st) := by
  unfold canOpenPosition
  rw [if_neg (by rw [h1]; exact Bool.false_ne_true), if_pos h2]

/-- Gate 3 of can_open_position: duplicate-exposure guard. -/
theorem canOpen_duplicate (params : RiskParams) (st : RiskState) (opp : SpreadOpportunity)
    (size openCount : Int) (existing : Option TrackedPosition) (avail dpnl : Int)
    (h1 : st.tradingHalted = false) (h2 : openCount < params.maxConcurrentPositions)
    (h3 : hasNonzeroPosition existing = true) :
    canOpenPosition params st opp size openCount existing avail dpnl =
      (false, "Already have position in " ++ opp.ticker, st) := by
  unfold canOpenPosition
  rw [if_neg (by rw [h1]; exact Bool.false_ne_true), if_neg (not_le.mpr h2), if_pos h3]

/-- Gate 4 of can_open_position: position-size limit. -/
theorem canOpen_sizeLimit (params : RiskParams) (st : RiskState) (opp : SpreadOpportunity)
    (size openCount : Int) (existing : Option TrackedPosition) (avail dpnl : Int)
    (h1 : st.tradingHalted = false) (h2 : openCount < params.maxConcurrentPositions)
    (h3 : hasNonzeroPosition existing = false) (h4 : params.maxPositionSize < size) :
    canOpenPosition params st opp size openCount existing avail dpnl =
      (false,
        "Size " ++ toString size ++ " exceeds max position size (" ++
          toString params.maxPositionSize ++ ")", st) := by
  unfold canOpenPosition
  rw [if_neg (by rw [h1]; exact Bool.false_ne_true), if_neg (not_le.mpr h2),
    if_neg (by rw [h3]; exact Bool.false_ne_true), if_pos h4]

/-- Gate 5 of can_open_position: affordability. -/
theorem canOpen_balance (params : RiskParams) (st : RiskState) (opp : SpreadOpportunity)
    (size openCount : Int) (existing : Option TrackedPosition) (avail dpnl : Int)
    (h1 : st.tradingHalted = false) (h2 : openCount < params.maxConcurrentPositions)
    (h3 : hasNonzeroPosition existing = false) (h4 : size ≤ params.maxPositionSize)
    (h5 : avail < opp.bidPrice * size) :
    canOpenPosition params st opp size openCount existing avail dpnl =
      (false,
        "Insufficient balance. Need $" ++ dollarString (opp.bidPrice * size) ++ ", have $" ++
          dollarString avail, st) := by
  unfold canOpenPosition
  rw [if_neg (by rw [h1]; exact Bool.false_ne_true), if_neg (not_le.mpr h2),
    if_neg (by rw [h3]; exact Bool.false_ne_true), if_neg (not_lt.mpr h4), if_pos h5]

/-- Gate 6 of can_open_position: daily-loss latch. -/
theorem canOpen_dailyLoss (params : RiskParams) (st : RiskState) (opp : SpreadOpportunity)
    (size openCount : Int) (existing : Option TrackedPosition) (avail dpnl : Int)
    (h1 : st.tradingHalted = false) (h2 : openCount < params.maxConcurrentPositions)
    (h3 : hasNonzeroPosition existing = false) (h4 : size ≤ params.maxPositionSize)
    (h5 : opp.bidPrice * size ≤ avail)
    (h6 : dpnl < 0 ∧ dailyLossLimitOf params st ≤ |dpnl|) :
    canOpenPosition params st opp size openCount existing avail dpnl =
      (false, dailyLossReason (dailyLossLimitOf params st),
        { st with
            tradingHalted := true
            haltReason := dailyLossReason (dailyLossLimitOf params st) }) := by
  unfold canOpenPosition
  rw [if_neg (by rw [h1]; exact Bool.false_ne_true), if_neg (not_le.mpr h2),
    if_neg (by rw [h3]; exact Bool.false_ne_true), if_neg (not_lt.mpr h4),
    if_neg (not_lt.mpr h5), if_pos h6]

/-- All gates pass: can_open_position allows the trade. -/
theorem canOpen_ok (params : RiskParams) (st : RiskState) (opp : SpreadOpportunity)
    (size openCount : Int) (existing : Option TrackedPosition) (avail dpnl : Int)
    (h1 : st.tradingHalted = false) (h2 : openCount < params.maxConcurrentPositions)
    (h3 : hasNonzeroPosition existing = false) (h4 : size ≤ params.maxPositionSize)
    (h5 : opp.bidPrice * size ≤ avail)
    (h6 : ¬ (dpnl < 0 ∧ dailyLossLimitOf params st ≤ |dpnl|)) :
    canOpenPosition params st opp size openCount existing avail dpnl = (true, "OK", st) := by
  unfold canOpenPosition
  rw [if_neg (by rw [h1]; exact Bool.false_ne_true), if_neg (not_le.mpr h2),
    if_neg (by rw [h3]; exact Bool.false_ne_true), if_neg (not_lt.mpr h4),
    if_neg (not_lt.mpr h5), if_neg h6]

/-- C5 (amended): can_open_position evaluates the six gates in the fixed
source order with the first failing gate returning its reason: (1) halt
flag, (2) open count at or above the limit, (3) existing non-zero position
for the ticker, (4) size above the limit, (5) cost above available
balance, (6) daily loss magnitude at or above
int(initialBalance * dailyLossLimitPct) — the truncated limit, not the
exact product — which latches the halt flag with a reason beginning
Daily loss; a halted state then rejects every opportunity regardless of
the other inputs. -/
theorem C5_gate_order_latch (params : RiskParams) (st : RiskState) (opp : SpreadOpportunity)
    (size openCount : Int) (existing : Option TrackedPosition) (avail dpnl : Int) :
    (st.tradingHalted = true →
      canOpenPosition params st opp size openCount existing avail dpnl =
        (false, "Trading halted: " ++ st.haltReason, st)) ∧
    (st.tradingHalted = false → params.maxConcurrentPositions ≤ openCount →
      canOpenPosition params st opp size openCount existing avail dpnl =
        (false,
          "Max concurrent positions (" ++ toString params.maxConcurrentPositions ++ ") reached",
          st)) ∧
    (st.tradingHalted = false → openCount < params.maxConcurrentPositions →
      hasNonzeroPosition existing = true →
      canOpenPosition params st opp size openCount existing avail dpnl =
        (false, "Already have position in " ++ opp.ticker, st)) ∧
    (st.tradingHalted = false → openCount < params.maxConcurrentPositions →
      hasNonzeroPosition existing = false → params.maxPositionSize < size →
      canOpenPosition params st opp size openCount existing avail dpnl =
        (false,
          "Size " ++ toString size ++ " exceeds max position size (" ++
            toString params.maxPositionSize ++ ")", st)) ∧
    (st.tradingHalted = false → openCount < params.maxConcurrentPositions →
      hasNonzeroPosition existing = false → size ≤ params.maxPositionSize →
      avail < opp.bidPrice * size →
      canOpenPosition params st opp size openCount existing avail dpnl =
        (false,
          "Insufficient balance. Need $" ++ dollarString (opp.bidPrice * size) ++ ", have $" ++
            dollarString avail, st)) ∧
    (st.tradingHalted = false → openCount < params.maxConcurrentPositions →
      hasNonzeroPosition existing = false → size ≤ params.maxPositionSize →
      opp.bidPrice * size ≤ avail →
      dpnl < 0 ∧ dailyLossLimitOf params st ≤ |dpnl| →
      canOpenPosition params st opp size openCount existing avail dpnl =
        (false, dailyLossReason (dailyLossLimitOf params st),
          { st with
              tradingHalted := true
              haltReason := dailyLossReason (dailyLossLimitOf params st) }) ∧
        pyStartsWith (dailyLossReason (dailyLossLimitOf params st)) "Daily loss" = true) ∧
    (st.tradingHalted = false → openCount < params.maxConcurrentPositions →
      hasNonzeroPosition existing = false → size ≤ params.maxPositionSize →
      opp.bidPrice * size ≤ avail →
      ¬ (dpnl < 0 ∧ dailyLossLimitOf params st ≤ |dpnl|) →
      canOpenPosition params st opp size openCount existing avail dpnl = (true, "OK", st)) ∧
    (∀ (st2 : RiskState) (opp2 : SpreadOpportunity) (size2 openCount2 : Int)
        (existing2 : Option TrackedPosition) (avail2 dpnl2 : Int),
      st2.tradingHalted = true →
      (canOpenPosition params st2 opp2 size2 openCount2 existing2 avail2 dpnl2).1 = false) :=
  ⟨fun h1 => canOpen_halted params st opp size openCount existing avail dpnl h1,
   fun h1 h2 => canOpen_maxConcurrent params st opp size openCount existing avail dpnl h1 h2,
   fun h1 h2 h3 => canOpen_duplicate params st opp size openCount existing avail dpnl h1 h2 h3,
   fun h1 h2 h3 h4 =>
     canOpen_sizeLimit params st opp size openCount existing avail dpnl h1 h2 h3 h4,
   fun h1 h2 h3 h4 h5 =>
     canOpen_balance params st opp size openCount existing avail dpnl h1 h2 h3 h4 h5,
   fun h1 h2 h3 h4 h5 h6 =>
     ⟨canOpen_dailyLoss params st opp size openCount existing avail dpnl h1 h2 h3 h4 h5 h6,
      dailyLossReason_startsWith _⟩,
   fun h1 h2 h3 h4 h5 h6 =>
     canOpen_ok params st opp size openCount existing avail dpnl h1 h2 h3 h4 h5 h6,
   fun st2 opp2 size2 openCount2 existing2 avail2 dpnl2 h1 => by
     rw [canOpen_halted params st2 opp2 size2 openCount2 existing2 avail2 dpnl2 h1]⟩

/-- Risk parameters at source defaults (risk 2 percent, daily loss limit
5 percent, 100 contracts, 5 concurrent positions). -/
def cexParams : RiskParams :=
  { maxPositionSize := 100
    maxConcurrentPositions := 5
    riskPerTradePct := 1 / 50
    dailyLossLimitPct := 1 / 20 }

/-- A live risk state whose initial balance of 214 cents makes the exact
daily-loss threshold the non-integer 10.7 cents. -/
def cexRiskState : RiskState :=
  { initialBalance := 214, tradingHalted := false, haltReason := "" }

/-- A concrete opportunity: 10 bid, 15 ask, 5 cent spread. -/
def cexOpp : SpreadOpportunity :=
  { ticker := "T"
    side := OrderSide.yes
    bidPrice := 10
    askPrice := 15
    spreadCents := 5 }

/-- The truncated daily-loss limit of the concrete setup: int(214/20) = 10
although the exact product is 10.7. -/
theorem cexDailyLossLimit : dailyLossLimitOf cexParams cexRiskState = 10 := by
  unfold dailyLossLimitOf cexParams cexRiskState pyInt
  rw [if_pos (by norm_num)]
  rw [show ((214 : Int) : Rat) * (1 / 20) = 107 / 10 by norm_num]
  rw [Int.floor_eq_iff]
  norm_num

/-- The daily-loss gate fires at the concrete counterexample inputs. -/
theorem cexDailyLossFires :
    canOpenPosition cexParams cexRiskState cexOpp 1 0 none 1000 (-10) =
      (false, dailyLossReason (dailyLossLimitOf cexParams cexRiskState),
        { cexRiskState with
            tradingHalted := true
            haltReason := dailyLossReason (dailyLossLimitOf cexParams cexRiskState) }) :=
  canOpen_dailyLoss cexParams cexRiskState cexOpp 1 0 none 1000 (-10)
    rfl (by decide) rfl (by decide) (by decide)
    ⟨by decide, by rw [cexDailyLossLimit]; decide⟩

/-- C5 counterexample: with initial balance 214 and limit percentage 1/20
the exact product is 10.7, yet a daily loss of only 10 cents already makes
the code reject and latch the halt, because the code compares against the
truncated int(214 * 0.05) = 10; the claimed threshold (magnitude at or
above initialBalance * dailyLossLimitPct) is not reached. -/
theorem C5_counterexample :
    (canOpenPosition cexParams cexRiskState cexOpp 1 0 none 1000 (-10)).1 = false ∧
    (canOpenPosition cexParams cexRiskState cexOpp 1 0 none 1000 (-10)).2.2.tradingHalted =
      true ∧
    ¬ ((cexRiskState.initialBalance : Rat) * cexParams.dailyLossLimitPct ≤
        ((|(-10 : Int)| : Int) : Rat)) := by
  refine ⟨?_, ?_, ?_⟩
  · rw [cexDailyLossFires]
  · rw [cexDailyLossFires]
  · unfold cexRiskState cexParams
    norm_num

/-- Witness for the amended C5: the halted gate and the daily-loss latch at
the concrete inputs of the counterexample. -/
theorem C5_gate_order_latch_witness :
    canOpenPosition cexParams
        { initialBalance := 214, tradingHalted := true, haltReason := "manual" } cexOpp
        1 0 none 1000 0 =
      (false, "Trading halted: " ++ "manual",
        { initialBalance := 214, tradingHalted := true, haltReason := "manual" }) ∧
    (canOpenPosition cexParams cexRiskState cexOpp 1 0 none 1000 (-10) =
      (false, dailyLossReason (dailyLossLimitOf cexParams cexRiskState),
        { cexRiskState with
            tradingHalted := true
            haltReason := dailyLossReason (dailyLossLimitOf cexParams cexRiskState) }) ∧
      pyStartsWith (dailyLossReason (dailyLossLimitOf cexParams cexRiskState)) "Daily loss" =
        true) :=
  ⟨(C5_gate_order_latch cexParams
      { initialBalance := 214, tradingHalted := true, haltReason := "manual" } cexOpp
      1 0 none 1000 0).1 rfl,
   (C5_gate_order_latch cexParams cexRiskState cexOpp 1 0 none 1000 (-10)).2.2.2.2.2.1
     rfl (by decide) rfl (by decide) (by decide)
     ⟨by decide, by rw [cexDailyLossLimit]; decide⟩⟩

/-- C9 (amended): a halt whose reason starts with Daily loss — in
particular the reason latched by the daily-loss gate — is untouched by
resume_trading; a manual halt whose reason does not start with Daily loss
is cleared by resume_trading; reset_daily_limits clears any halt, after
which can_open_position no longer rejects on the halted-flag gate (with
the remaining gates passing it returns OK). -/
theorem C9_resume_latch :
    (∀ st : RiskState, pyStartsWith st.haltReason "Daily loss" = true →
      resumeTrading st = st) ∧
    (∀ (st : RiskState) (limit : Int),
      resumeTrading (haltTrading st (dailyLossReason limit)) =
        haltTrading st (dailyLossReason limit)) ∧
    (∀ (st : RiskState) (r : String), pyStartsWith r "Daily loss" = false →
      resumeTrading (haltTrading st r) =
        { st with tradingHalted := false, haltReason := "" }) ∧
    (∀ st : RiskState, (resetDailyLimits st).tradingHalted = false) ∧
    (∀ (params : RiskParams) (st : RiskState) (opp : SpreadOpportunity)
        (size openCount : Int) (existing : Option TrackedPosition) (avail dpnl : Int),
      openCount < params.maxConcurrentPositions → hasNonzeroPosition existing = false →
      size ≤ params.maxPositionSize → opp.bidPrice * size ≤ avail →
      ¬ (dpnl < 0 ∧ dailyLossLimitOf params (resetDailyLimits st) ≤ |dpnl|) →
      canOpenPosition params (resetDailyLimits st) opp size openCount existing avail dpnl =
        (true, "OK", resetDailyLimits st)) := by
  refine ⟨?_, ?_, ?_, ?_, ?_⟩
  · intro st h
    unfold resumeTrading
    rw [if_pos h]
  · intro st limit
    have hp : pyStartsWith (haltTrading st (dailyLossReason limit)).haltReason "Daily loss" =
        true := dailyLossReason_startsWith limit
    unfold resumeTrading
    rw [if_pos hp]
  · intro st r h
    have hr : pyStartsWith (haltTrading st r).haltReason "Daily loss" = false := h
    unfold resumeTrading
    rw [if_neg (by rw [hr]; exact Bool.false_ne_true)]
    rfl
  · intro st
    rfl
  · intro params st opp size openCount existing avail dpnl h2 h3 h4 h5 h6
    exact canOpen_ok params (resetDailyLimits st) opp size openCount existing avail dpnl
      rfl h2 h3 h4 h5 h6

/-- A live risk state with no halt, used in the C9 concrete instances. -/
def plainRiskState : RiskState :=
  { initialBalance := 0, tradingHalted := false, haltReason := "" }

/-- C9 counterexample: the no-op test is a string-prefix test on the
reason, not an origin test, so resume_trading fails to clear even a
manual halt_trading whose free-text reason happens to start with
Daily loss — refuting the claim that resume_trading always clears a
manual halt. -/
theorem C9_counterexample :
    (resumeTrading (haltTrading plainRiskState "Daily loss drill")).tradingHalted = true ∧
    (resumeTrading (haltTrading plainRiskState "Daily loss drill")).haltReason =
      "Daily loss drill" := by
  have h : resumeTrading (haltTrading plainRiskState "Daily loss drill") =
      haltTrading plainRiskState "Daily loss drill" := by
    unfold resumeTrading
    rw [if_pos (by decide)]
  rw [h]
  exact ⟨rfl, rfl⟩

/-- Witness for the amended C9: the daily-loss latch survives resume, a
manual halt is cleared, and after reset_daily_limits the gates pass. -/
theorem C9_resume_latch_witness :
    resumeTrading (haltTrading plainRiskState (dailyLossReason 10)) =
      haltTrading plainRiskState (dailyLossReason 10) ∧
    resumeTrading (haltTrading plainRiskState "manual stop") =
      { plainRiskState with tradingHalted := false, haltReason := "" } ∧
    (resetDailyLimits (haltTrading plainRiskState (dailyLossReason 10))).tradingHalted =
      false ∧
    canOpenPosition cexParams
        (resetDailyLimits (haltTrading cexRiskState (dailyLossReason 10))) cexOpp
        1 0 none 1000 0 =
      (true, "OK", resetDailyLimits (haltTrading cexRiskState (dailyLossReason 10))) :=
  ⟨C9_resume_latch.2.1 plainRiskState 10,
   C9_resume_latch.2.2.1 plainRiskState "manual stop" (by decide),
   C9_resume_latch.2.2.2.1 (haltTrading plainRiskState (dailyLossReason 10)),
   C9_resume_latch.2.2.2.2 cexParams (haltTrading cexRiskState (dailyLossReason 10)) cexOpp
     1 0 none 1000 0 (by decide) rfl (by decide) (by decide)
     (fun h => absurd h.1 (by decide))⟩

/-- risk_amount = int(balance * risk_per_trade_pct). -/
def riskAmount (params : RiskParams) (balance : Int) : Int :=
  pyInt ((balance : Rat) * params.riskPerTradePct)

/-- risk_based_size = risk_amount // bid_price (Python floor division). -/
def riskBasedSize (params : RiskParams) (opp : SpreadOpportunity) (balance : Int) : Int :=
  (riskAmount params balance).fdiv opp.bidPrice

/-- The profit-factor scaling: when spread_cents - 2 > 0, multiply by
min(2.0, 1.0 + (spread_cents - 2) / 10) and truncate with int(). -/
def profitScaledSize (params : RiskParams) (opp : SpreadOpportunity) (balance : Int) : Int :=
  if 0 < opp.spreadCents - 2 then
    pyInt ((riskBasedSize params opp balance : Rat) *
      min 2 (1 + ((opp.spreadCents - 2 : Int) : Rat) / 10))
  else riskBasedSize params opp balance

/-- RiskManager.calculate_position_size: risk-based size, profit scaling,
clamp to max_position_size, affordability clamp, floor at one contract.
The locals of the source are inlined. -/
def calculatePositionSize (params : RiskParams) (opp : SpreadOpportunity)
    (balance : Int) : Int :=
  if opp.bidPrice ≤ 0 then 0
  else
    max 1
      (if balance <
          opp.bidPrice * min (profitScaledSize params opp balance) params.maxPositionSize then
        balance.fdiv opp.bidPrice
      else min (profitScaledSize params opp balance) params.maxPositionSize)

/-- pyInt on a nonnegative rational is the floor. -/
theorem pyInt_of_nonneg (q : Rat) (h : 0 ≤ q) : pyInt q = ⌊q⌋ := if_pos h

/-- C6: for a balance below one contract's bid price (so the affordability
division yields zero) the floor-at-1 returns one contract whose cost
exceeds the balance; the risk-based pipeline (truncated risk amount, floor
division by the bid, profit scaling, both clamps) collapses to zero first,
so the result is exactly the floor value 1 and bidPrice * 1 > balance. -/
theorem C6_small_balance_cost_exceeds (params : RiskParams) (opp : SpreadOpportunity)
    (balance : Int)
    (hp0 : 0 ≤ params.riskPerTradePct) (hp1 : params.riskPerTradePct ≤ 1)
    (hmax : 0 ≤ params.maxPositionSize)
    (hb0 : 0 ≤ balance) (hlt : balance < opp.bidPrice) :
    calculatePositionSize params opp balance = 1 ∧
    balance < opp.bidPrice * calculatePositionSize params opp balance := by
  have hbid : 0 < opp.bidPrice := lt_of_le_of_lt hb0 hlt
  have hq0 : (0 : Rat) ≤ (balance : Rat) * params.riskPerTradePct :=
    mul_nonneg (by exact_mod_cast hb0) hp0
  have hA0 : 0 ≤ riskAmount params balance := by
    unfold riskAmount
    rw [pyInt_of_nonneg _ hq0]
    exact Int.floor_nonneg.mpr hq0
  have hAle : riskAmount params balance ≤ balance := by
    unfold riskAmount
    rw [pyInt_of_nonneg _ hq0]
    have hle : (balance : Rat) * params.riskPerTradePct ≤ (balance : Rat) :=
      mul_le_of_le_one_right (by exact_mod_cast hb0) hp1
    calc ⌊(balance : Rat) * params.riskPerTradePct⌋
        ≤ ⌊(balance : Rat)⌋ := Int.floor_le_floor hle
      _ = balance := Int.floor_intCast balance
  have hB : riskBasedSize params opp balance = 0 := by
    unfold riskBasedSize
    rw [Int.fdiv_eq_ediv _ (le_of_lt hbid)]
    exact Int.ediv_eq_zero_of_lt hA0 (by omega)
  have hC : profitScaledSize params opp balance = 0 := by
    unfold profitScaledSize
    split
    · rw [hB]
      show pyInt (((0 : Int) : Rat) * _) = 0
      rw [show (((0 : Int) : Rat)) = 0 by norm_num, zero_mul, pyInt_of_nonneg _ le_rfl]
      exact Int.floor_zero
    · exact hB
  have hone : calculatePositionSize params opp balance = 1 := by
    unfold calculatePositionSize
    rw [if_neg (not_le.mpr hbid), hC, min_eq_left hmax, mul_zero,
      if_neg (not_lt.mpr hb0)]
    decide
  refine ⟨hone, ?_⟩
  rw [hone, mul_one]
  exact hlt

/-- Witness for C6 at concrete inputs: default 2 percent risk, balance 5
cents, bid 10 cents: the returned size is 1 and its 10 cent cost exceeds
the 5 cent balance. -/
theorem C6_small_balance_cost_exceeds_witness :
    calculatePositionSize cexParams cexOpp 5 = 1 ∧
    (5 : Int) < cexOpp.bidPrice * calculatePositionSize cexParams cexOpp 5 :=
  C6_small_balance_cost_exceeds cexParams cexOpp 5
    (by norm_num [cexParams]) (by norm_num [cexParams]) (by decide) (by decide) (by decide)

/-- StrategyParams fields consumed by the execution engine. -/
structure EngineParams where
  orderTimeoutSeconds : Int
deriving DecidableEq, Repr

/-- TradeResult from src/models/position.py (duration elided: wall clock). -/
structure TradeResult where
  success : Bool
  ticker : String
  buyOrderId : Option String
  sellOrderId : Option String
  buyFillResult : Option FillResult
  sellFillResult : Option FillResult
  quantityFilled : Int
  entryPrice : Int
  exitPrice : Int
  grossPnl : Int
  fees : Int
  netPnl : Int
  errorMessage : Option String
deriving DecidableEq, Repr

/-- The TradeResult the engine starts from. -/
def initTradeResult (ticker : String) : TradeResult :=
  { success := false
    ticker := ticker
    buyOrderId := none
    sellOrderId := none
    buyFillResult := none
    sellFillResult := none
    quantityFilled := 0
    entryPrice := 0
    exitPrice := 0
    grossPnl := 0
    fees := 0
    netPnl := 0
    errorMessage := none }

/-- ExecutionEngine._calculate_pnl: gross = (exit - entry) * quantity,
fees = quantity * 2 (one cent per contract per side), net = gross - fees. -/
def calculatePnl (r : TradeResult) (quantity : Int) : TradeResult :=
  let gross := (r.exitPrice - r.entryPrice) * quantity
  let fees := quantity * 2
  { r with grossPnl := gross, fees := fees, netPnl := gross - fees }

/-- The .value string of a FillResult enum member. -/
def fillResultValue : FillResult → String
  | FillResult.filled => "filled"
  | FillResult.partialFill => "partial"
  | FillResult.timeout => "timeout"
  | FillResult.cancelled => "cancelled"
  | FillResult.error => "error"

/-- The externally visible actions execute_spread_trade takes, in order:
order placement, fill waits (with their timeout), cancellations, and
position-tracker updates. -/
inductive EngineAction where
  | placeBuy (price count : Int)
  | placeSell (price count : Int)
  | waitFill (orderId : String) (timeoutSeconds : Int)
  | cancelOrder (orderId : String)
  | positionUpdate (ticker : String) (side : OrderSide) (qtyChange price : Int)
deriving DecidableEq, Repr

/-- The responses of the collaborators during one execute_spread_trade
call: the balance, the risk go/no-go, the wait results, and the
filled_count of each local order re-read (none when get_order finds
nothing). -/
structure EngineEnv where
  availableBalance : Int
  canTrade : Bool
  canReason : String
  buyOrderId : String
  buyWait : FillResult
  buyReadAfterCancel : Option Int
  buyReadAfterWait : Option Int
  sellOrderId : String
  sellWait : FillResult
  sellReadAfterCancel : Option Int
  exitWait : FillResult
deriving DecidableEq, Repr

/-- ExecutionEngine._exit_partial_position: record the partial buy in the
tracker, place the exit sell at the ask, wait with double timeout; on
FILLED compute PnL and close the position in the tracker, otherwise
report the failure. -/
def exitPartialPosition (p : EngineParams) (env : EngineEnv) (opp : SpreadOpportunity)
    (r : TradeResult) (quantity : Int) : TradeResult × List EngineAction :=
  let acts :=
    [EngineAction.positionUpdate opp.ticker opp.side quantity opp.bidPrice,
     EngineAction.placeSell opp.askPrice quantity,
     EngineAction.waitFill env.sellOrderId (p.orderTimeoutSeconds * 2)]
  let r2 := { r with sellOrderId := some env.sellOrderId, sellFillResult := some env.exitWait }
  if env.exitWait = FillResult.filled then
    let r3 := calculatePnl { r2 with exitPrice := opp.askPrice } quantity
    (r3,
      acts ++ [EngineAction.positionUpdate opp.ticker opp.side (-quantity) opp.askPrice])
  else
    ({ r2 with errorMessage := some "Failed to exit partial position" }, acts)

/-- ExecutionEngine.execute_spread_trade: sizing, risk check, buy leg with
timeout handling (cancel and partial exit), sell leg with timeout
handling, PnL on completion.  Returns the TradeResult together with the
ordered trace of external actions. -/
def executeSpreadTrade (riskP : RiskParams) (p : EngineParams) (env : EngineEnv)
    (opp : SpreadOpportunity) : TradeResult × List EngineAction :=
  let r0 := initTradeResult opp.ticker
  let size := calculatePositionSize riskP opp env.availableBalance
  if size ≤ 0 then
    ({ r0 with errorMessage := some "Position size calculated as 0" }, [])
  else if env.canTrade = false then
    ({ r0 with errorMessage := some ("Risk check failed: " ++ env.canReason) }, [])
  else
    let acts1 :=
      [EngineAction.placeBuy opp.bidPrice size,
       EngineAction.waitFill env.buyOrderId p.orderTimeoutSeconds]
    let r2 :=
      { r0 with buyOrderId := some env.buyOrderId, buyFillResult := some env.buyWait }
    if env.buyWait = FillResult.timeout then
      let acts2 := acts1 ++ [EngineAction.cancelOrder env.buyOrderId]
      let f := env.buyReadAfterCancel.getD 0
      if 0 < f then
        let r3 := { r2 with quantityFilled := f, entryPrice := opp.bidPrice }
        let ex := exitPartialPosition p env opp r3 f
        (ex.1, acts2 ++ ex.2)
      else
        ({ r2 with errorMessage := some "Buy order timed out with no fill" }, acts2)
    else if env.buyWait = FillResult.cancelled then
      ({ r2 with errorMessage := some "Buy order was cancelled" }, acts1)
    else if env.buyWait = FillResult.error then
      ({ r2 with errorMessage := some "Buy order encountered an error" }, acts1)
    else
      let filledQty := env.buyReadAfterWait.getD size
      let r3 := { r2 with quantityFilled := filledQty, entryPrice := opp.bidPrice }
      let acts4 := acts1 ++
        [EngineAction.positionUpdate opp.ticker opp.side filledQty opp.bidPrice,
         EngineAction.placeSell opp.askPrice filledQty,
         EngineAction.waitFill env.sellOrderId p.orderTimeoutSeconds]
      let r5 :=
        { r3 with sellOrderId := some env.sellOrderId, sellFillResult := some env.sellWait }
      if env.sellWait = FillResult.timeout then
        let acts5 := acts4 ++ [EngineAction.cancelOrder env.sellOrderId]
        let soldQty := env.sellReadAfterCancel.getD 0
        if 0 < soldQty then
          let r6 := calculatePnl { r5 with exitPrice := opp.askPrice } soldQty
          ({ r6 with
              errorMessage := some
                ("Partial sell: " ++ toString soldQty ++ "/" ++ toString filledQty ++
                  " contracts") }, acts5)
        else
          ({ r5 with
              errorMessage := some "Sell order timed out - position still open" }, acts5)
      else if env.sellWait = FillResult.cancelled ∨ env.sellWait = FillResult.error then
        ({ r5 with
            errorMessage := some
              ("Sell order " ++ fillResultValue env.sellWait ++ " - position still open") },
          acts4)
      else
        let r6 := calculatePnl { r5 with exitPrice := opp.askPrice } filledQty
        ({ r6 with success := true },
          acts4 ++
            [EngineAction.positionUpdate opp.ticker opp.side (-filledQty) opp.askPrice])

/-- calculate_position_size never returns less than one contract when the
bid is positive (the floor-at-1). -/
theorem calculatePositionSize_pos (params : RiskParams) (opp : SpreadOpportunity)
    (balance : Int) (hbid : 0 < opp.bidPrice) :
    1 ≤ calculatePositionSize params opp balance := by
  unfold calculatePositionSize
  rw [if_neg (not_le.mpr hbid)]
  exact le_max_left 1 _

/-- _exit_partial_position when the exit sell fills: PnL is computed at the
ask and the position is closed in the tracker. -/
theorem exitPartial_filled_eq (p : EngineParams) (env : EngineEnv) (opp : SpreadOpportunity)
    (r : TradeResult) (q : Int) (h : env.exitWait = FillResult.filled) :
    exitPartialPosition p env opp r q =
      (calculatePnl
        { r with
            sellOrderId := some env.sellOrderId
            sellFillResult := some env.exitWait
            exitPrice := opp.askPrice } q,
       [EngineAction.positionUpdate opp.ticker opp.side q opp.bidPrice,
        EngineAction.placeSell opp.askPrice q,
        EngineAction.waitFill env.sellOrderId (p.orderTimeoutSeconds * 2),
        EngineAction.positionUpdate opp.ticker opp.side (-q) opp.askPrice]) := by
  unfold exitPartialPosition
  rw [if_pos h]
  rfl

/-- _exit_partial_position when the exit sell does not fill: failure is
reported and the exposure stays open. -/
theorem exitPartial_notFilled_eq (p : EngineParams) (env : EngineEnv)
    (opp : SpreadOpportunity) (r : TradeResult) (q : Int)
    (h : ¬ env.exitWait = FillResult.filled) :
    exitPartialPosition p env opp r q =
      ({ r with
          sellOrderId := some env.sellOrderId
          sellFillResult := some env.exitWait
          errorMessage := some "Failed to exit partial position" },
       [EngineAction.positionUpdate opp.ticker opp.side q opp.bidPrice,
        EngineAction.placeSell opp.askPrice q,
        EngineAction.waitFill env.sellOrderId (p.orderTimeoutSeconds * 2)]) := by
  unfold exitPartialPosition
  rw [if_neg h]

/-- execute_spread_trade, buy leg timed out with a positive post-cancel
fill: cancel, record the partial quantity, and delegate to the partial
exit. -/
theorem executeSpreadTrade_buyTimeoutPartial_eq (riskP : RiskParams) (p : EngineParams)
    (env : EngineEnv) (opp : SpreadOpportunity) (size f : Int)
    (hsz : calculatePositionSize riskP opp env.availableBalance = size)
    (hsize : ¬ size ≤ 0) (hct : ¬ env.canTrade = false)
    (htw : env.buyWait = FillResult.timeout)
    (hf : env.buyReadAfterCancel.getD 0 = f) (hfpos : 0 < f) :
    executeSpreadTrade riskP p env opp =
      ((exitPartialPosition p env opp
          { initTradeResult opp.ticker with
              buyOrderId := some env.buyOrderId
              buyFillResult := some env.buyWait
              quantityFilled := f
              entryPrice := opp.bidPrice } f).1,
        [EngineAction.placeBuy opp.bidPrice size,
         EngineAction.waitFill env.buyOrderId p.orderTimeoutSeconds,
         EngineAction.cancelOrder env.buyOrderId] ++
          (exitPartialPosition p env opp
            { initTradeResult opp.ticker with
                buyOrderId := some env.buyOrderId
                buyFillResult := some env.buyWait
                quantityFilled := f
                entryPrice := opp.bidPrice } f).2) := by
  unfold executeSpreadTrade
  rw [hsz, if_neg hsize, if_neg hct, if_pos htw, hf, if_pos hfpos]
  rfl

/-- execute_spread_trade, buy treated as filled (FILLED or PARTIAL) and
sell leg completing: position opened and closed in the tracker, PnL at the
ask, success. -/
theorem executeSpreadTrade_normal_eq (riskP : RiskParams) (p : EngineParams)
    (env : EngineEnv) (opp : SpreadOpportunity) (size fq : Int)
    (hsz : calculatePositionSize riskP opp env.availableBalance = size)
    (hfq : env.buyReadAfterWait.getD size = fq)
    (hsize : ¬ size ≤ 0) (hct : ¬ env.canTrade = false)
    (hb1 : ¬ env.buyWait = FillResult.timeout)
    (hb2 : ¬ env.buyWait = FillResult.cancelled)
    (hb3 : ¬ env.buyWait = FillResult.error)
    (hs1 : ¬ env.sellWait = FillResult.timeout)
    (hs23 : ¬ (env.sellWait = FillResult.cancelled ∨ env.sellWait = FillResult.error)) :
    executeSpreadTrade riskP p env opp =
      ({ calculatePnl
          { initTradeResult opp.ticker with
              buyOrderId := some env.buyOrderId
              buyFillResult := some env.buyWait
              quantityFilled := fq
              entryPrice := opp.bidPrice
              sellOrderId := some env.sellOrderId
              sellFillResult := some env.sellWait
              exitPrice := opp.askPrice } fq
        with success := true },
       [EngineAction.placeBuy opp.bidPrice size,
        EngineAction.waitFill env.buyOrderId p.orderTimeoutSeconds,
        EngineAction.positionUpdate opp.ticker opp.side fq opp.bidPrice,
        EngineAction.placeSell opp.askPrice fq,
        EngineAction.waitFill env.sellOrderId p.orderTimeoutSeconds,
        EngineAction.positionUpdate opp.ticker opp.side (-fq) opp.askPrice]) := by
  unfold executeSpreadTrade
  rw [hsz, if_neg hsize, if_neg hct, if_neg hb1, if_neg hb2, if_neg hb3, hfq, if_neg hs1,
    if_neg hs23]
  rfl

/-- execute_spread_trade, sell leg timed out with a positive post-cancel
fill: PnL on the sold portion only, partial-sell message, position not
closed in the tracker. -/
theorem executeSpreadTrade_partialSell_eq (riskP : RiskParams) (p : EngineParams)
    (env : EngineEnv) (opp : SpreadOpportunity) (size fq sold : Int)
    (hsz : calculatePositionSize riskP opp env.availableBalance = size)
    (hfq : env.buyReadAfterWait.getD size = fq)
    (hsold : env.sellReadAfterCancel.getD 0 = sold)
    (hsize : ¬ size ≤ 0) (hct : ¬ env.canTrade = false)
    (hb1 : ¬ env.buyWait = FillResult.timeout)
    (hb2 : ¬ env.buyWait = FillResult.cancelled)
    (hb3 : ¬ env.buyWait = FillResult.error)
    (hs1 : env.sellWait = FillResult.timeout)
    (hspos : 0 < sold) :
    executeSpreadTrade riskP p env opp =
      ({ calculatePnl
          { initTradeResult opp.ticker with
              buyOrderId := some env.buyOrderId
              buyFillResult := some env.buyWait
              quantityFilled := fq
              entryPrice := opp.bidPrice
              sellOrderId := some env.sellOrderId
              sellFillResult := some env.sellWait
              exitPrice := opp.askPrice } sold
        with errorMessage :=
          some ("Partial sell: " ++ toString sold ++ "/" ++ toString fq ++ " contracts") },
       [EngineAction.placeBuy opp.bidPrice size,
        EngineAction.waitFill env.buyOrderId p.orderTimeoutSeconds,
        EngineAction.positionUpdate opp.ticker opp.side fq opp.bidPrice,
        EngineAction.placeSell opp.askPrice fq,
        EngineAction.waitFill env.sellOrderId p.orderTimeoutSeconds,
        EngineAction.cancelOrder env.sellOrderId]) := by
  unfold executeSpreadTrade
  rw [hsz, if_neg hsize, if_neg hct, if_neg hb1, if_neg hb2, if_neg hb3, hfq, if_pos hs1,
    hsold, if_pos hspos]
  rfl

/-- C2 (amended): when the buy wait returns TIMEOUT and the post-cancel
order read shows filledCount f > 0, the engine cancels the buy order,
records the f contracts as an open position at the bid, and attempts an
immediate exit sell of exactly f contracts with double the normal timeout;
when the buy wait returns PARTIAL the engine instead treats it as a fill
and proceeds with the normal sell leg — no cancellation, and every wait it
issues uses the normal timeout (the doubled wait can only occur in the
trace if 2x equals the normal timeout). -/
theorem C2_buy_timeout_exit (riskP : RiskParams) (p : EngineParams) (env : EngineEnv)
    (opp : SpreadOpportunity) (size f : Int)
    (hsz : calculatePositionSize riskP opp env.availableBalance = size)
    (hsize : ¬ size ≤ 0) (hct : ¬ env.canTrade = false) :
    (env.buyWait = FillResult.timeout → env.buyReadAfterCancel.getD 0 = f → 0 < f →
      EngineAction.cancelOrder env.buyOrderId ∈ (executeSpreadTrade riskP p env opp).2 ∧
      EngineAction.positionUpdate opp.ticker opp.side f opp.bidPrice ∈
        (executeSpreadTrade riskP p env opp).2 ∧
      EngineAction.placeSell opp.askPrice f ∈ (executeSpreadTrade riskP p env opp).2 ∧
      EngineAction.waitFill env.sellOrderId (p.orderTimeoutSeconds * 2) ∈
        (executeSpreadTrade riskP p env opp).2 ∧
      (executeSpreadTrade riskP p env opp).1.quantityFilled = f ∧
      (executeSpreadTrade riskP p env opp).1.entryPrice = opp.bidPrice) ∧
    (env.buyWait = FillResult.partialFill →
      ¬ env.sellWait = FillResult.timeout →
      ¬ (env.sellWait = FillResult.cancelled ∨ env.sellWait = FillResult.error) →
      (∀ oid : String,
        EngineAction.cancelOrder oid ∉ (executeSpreadTrade riskP p env opp).2) ∧
      EngineAction.waitFill env.sellOrderId p.orderTimeoutSeconds ∈
        (executeSpreadTrade riskP p env opp).2 ∧
      (EngineAction.waitFill env.sellOrderId (p.orderTimeoutSeconds * 2) ∈
          (executeSpreadTrade riskP p env opp).2 →
        p.orderTimeoutSeconds * 2 = p.orderTimeoutSeconds)) := by
  constructor
  · intro htw hf hfpos
    rw [executeSpreadTrade_buyTimeoutPartial_eq riskP p env opp size f hsz hsize hct htw hf
      hfpos]
    by_cases hexit : env.exitWait = FillResult.filled
    · rw [exitPartial_filled_eq _ _ _ _ _ hexit]
      refine ⟨?_, ?_, ?_, ?_, rfl, rfl⟩ <;> simp
    · rw [exitPartial_notFilled_eq _ _ _ _ _ hexit]
      refine ⟨?_, ?_, ?_, ?_, rfl, rfl⟩ <;> simp
  · intro hpw hs1 hs23
    have hb1 : ¬ env.buyWait = FillResult.timeout := by rw [hpw]; decide
    have hb2 : ¬ env.buyWait = FillResult.cancelled := by rw [hpw]; decide
    have hb3 : ¬ env.buyWait = FillResult.error := by rw [hpw]; decide
    rw [executeSpreadTrade_normal_eq riskP p env opp size (env.buyReadAfterWait.getD size)
      hsz rfl hsize hct hb1 hb2 hb3 hs1 hs23]
    refine ⟨?_, ?_, ?_⟩
    · intro oid
      simp
    · simp
    · intro hmem
      simp only [List.mem_cons, List.not_mem_nil, or_false] at hmem
      rcases hmem with h | h | h | h | h | h <;> simp_all

/-- Engine timing parameters at the source default (300 second timeout). -/
def cexEngineParams : EngineParams := { orderTimeoutSeconds := 300 }

/-- An environment in which the buy wait classifies as PARTIAL (the order
went terminal with 5 of the requested contracts filled) and the sell leg
then fills. -/
def cexEnv : EngineEnv :=
  { availableBalance := 10000
    canTrade := true
    canReason := "OK"
    buyOrderId := "B1"
    buyWait := FillResult.partialFill
    buyReadAfterCancel := none
    buyReadAfterWait := some 5
    sellOrderId := "S1"
    sellWait := FillResult.filled
    sellReadAfterCancel := none
    exitWait := FillResult.filled }

/-- The position size of the concrete engine runs is at least one. -/
theorem cexSizePos : ¬ calculatePositionSize cexParams cexOpp (10000 : Int) ≤ 0 := by
  have h := calculatePositionSize_pos cexParams cexOpp 10000 (by decide)
  omega

/-- C2 counterexample: the buy wait returns PARTIAL with filledCount 5 > 0,
yet the engine issues no cancellation and waits on the sell with the
normal 300 second timeout, never the doubled 600 — only the TIMEOUT
result takes the cancel-and-extended-exit path, refuting the claimed
TIMEOUT-or-PARTIAL handling. -/
theorem C2_counterexample :
    (executeSpreadTrade cexParams cexEngineParams cexEnv cexOpp).1.buyFillResult =
      some FillResult.partialFill ∧
    (executeSpreadTrade cexParams cexEngineParams cexEnv cexOpp).1.quantityFilled = 5 ∧
    EngineAction.cancelOrder "B1" ∉
      (executeSpreadTrade cexParams cexEngineParams cexEnv cexOpp).2 ∧
    EngineAction.waitFill "S1" 300 ∈
      (executeSpreadTrade cexParams cexEngineParams cexEnv cexOpp).2 ∧
    EngineAction.waitFill "S1" 600 ∉
      (executeSpreadTrade cexParams cexEngineParams cexEnv cexOpp).2 := by
  rw [executeSpreadTrade_normal_eq cexParams cexEngineParams cexEnv cexOpp
    (calculatePositionSize cexParams cexOpp 10000) 5 rfl rfl cexSizePos (by decide)
    (by decide) (by decide) (by decide) (by decide) (by decide)]
  refine ⟨rfl, rfl, ?_, ?_, ?_⟩ <;> simp [cexEnv, cexEngineParams, cexOpp]

/-- Witness for the amended C2: the buy order "B1" times out with 3
contracts filled on the post-cancel read; the trace shows the cancel, the
position record at the bid, and the exit sell wait at 600 = 2 x 300
seconds. -/
def cexEnvExit : EngineEnv :=
  { availableBalance := 10000
    canTrade := true
    canReason := "OK"
    buyOrderId := "B1"
    buyWait := FillResult.timeout
    buyReadAfterCancel := some 3
    buyReadAfterWait := none
    sellOrderId := "S1"
    sellWait := FillResult.filled
    sellReadAfterCancel := none
    exitWait := FillResult.filled }

/-- Witness instantiating the amended C2 on both branches. -/
theorem C2_buy_timeout_exit_witness :
    (EngineAction.cancelOrder "B1" ∈
        (executeSpreadTrade cexParams cexEngineParams cexEnvExit cexOpp).2 ∧
      EngineAction.positionUpdate "T" OrderSide.yes 3 10 ∈
        (executeSpreadTrade cexParams cexEngineParams cexEnvExit cexOpp).2 ∧
      EngineAction.placeSell 15 3 ∈
        (executeSpreadTrade cexParams cexEngineParams cexEnvExit cexOpp).2 ∧
      EngineAction.waitFill "S1" (300 * 2) ∈
        (executeSpreadTrade cexParams cexEngineParams cexEnvExit cexOpp).2 ∧
      (executeSpreadTrade cexParams cexEngineParams cexEnvExit cexOpp).1.quantityFilled =
        3 ∧
      (executeSpreadTrade cexParams cexEngineParams cexEnvExit cexOpp).1.entryPrice = 10) ∧
    ((∀ oid : String,
        EngineAction.cancelOrder oid ∉
          (executeSpreadTrade cexParams cexEngineParams cexEnv cexOpp).2) ∧
      EngineAction.waitFill "S1" 300 ∈
        (executeSpreadTrade cexParams cexEngineParams cexEnv cexOpp).2 ∧
      (EngineAction.waitFill "S1" (300 * 2) ∈
          (executeSpreadTrade cexParams cexEngineParams cexEnv cexOpp).2 →
        (300 : Int) * 2 = 300)) :=
  ⟨(C2_buy_timeout_exit cexParams cexEngineParams cexEnvExit cexOpp
      (calculatePositionSize cexParams cexOpp 10000) 3 rfl cexSizePos (by decide)).1
    rfl rfl (by decide),
   (C2_buy_timeout_exit cexParams cexEngineParams cexEnv cexOpp
      (calculatePositionSize cexParams cexOpp 10000) 5 rfl cexSizePos (by decide)).2
    rfl (by decide) (by decide)⟩

/-- C8: _calculate_pnl computes grossPnl = (exit - entry) * quantity,
fees = quantity * 2 and netPnl = grossPnl - fees in integer cents; at
entry 45, exit 50, quantity 10 this is 50 / 20 / 30; and the engine uses
this identical computation on the normal sell leg, the partial-sell path
and the partial-buy exit path. -/
theorem C8_pnl_semantics :
    (∀ (r : TradeResult) (q : Int),
      (calculatePnl r q).grossPnl = (r.exitPrice - r.entryPrice) * q ∧
      (calculatePnl r q).fees = q * 2 ∧
      (calculatePnl r q).netPnl = (r.exitPrice - r.entryPrice) * q - q * 2) ∧
    ((calculatePnl { initTradeResult "T" with entryPrice := 45, exitPrice := 50 }
        10).grossPnl = 50 ∧
      (calculatePnl { initTradeResult "T" with entryPrice := 45, exitPrice := 50 }
        10).fees = 20 ∧
      (calculatePnl { initTradeResult "T" with entryPrice := 45, exitPrice := 50 }
        10).netPnl = 30) ∧
    (∀ (riskP : RiskParams) (p : EngineParams) (env : EngineEnv) (opp : SpreadOpportunity)
        (size fq : Int),
      calculatePositionSize riskP opp env.availableBalance = size →
      env.buyReadAfterWait.getD size = fq →
      ¬ size ≤ 0 → ¬ env.canTrade = false →
      ¬ env.buyWait = FillResult.timeout → ¬ env.buyWait = FillResult.cancelled →
      ¬ env.buyWait = FillResult.error →
      ¬ env.sellWait = FillResult.timeout →
      ¬ (env.sellWait = FillResult.cancelled ∨ env.sellWait = FillResult.error) →
      (executeSpreadTrade riskP p env opp).1.grossPnl =
          (opp.askPrice - opp.bidPrice) * fq ∧
        (executeSpreadTrade riskP p env opp).1.fees = fq * 2 ∧
        (executeSpreadTrade riskP p env opp).1.netPnl =
          (opp.askPrice - opp.bidPrice) * fq - fq * 2) ∧
    (∀ (riskP : RiskParams) (p : EngineParams) (env : EngineEnv) (opp : SpreadOpportunity)
        (size fq sold : Int),
      calculatePositionSize riskP opp env.availableBalance = size →
      env.buyReadAfterWait.getD size = fq →
      env.sellReadAfterCancel.getD 0 = sold →
      ¬ size ≤ 0 → ¬ env.canTrade = false →
      ¬ env.buyWait = FillResult.timeout → ¬ env.buyWait = FillResult.cancelled →
      ¬ env.buyWait = FillResult.error →
      env.sellWait = FillResult.timeout → 0 < sold →
      (executeSpreadTrade riskP p env opp).1.grossPnl =
          (opp.askPrice - opp.bidPrice) * sold ∧
        (executeSpreadTrade riskP p env opp).1.fees = sold * 2 ∧
        (executeSpreadTrade riskP p env opp).1.netPnl =
          (opp.askPrice - opp.bidPrice) * sold - sold * 2) ∧
    (∀ (riskP : RiskParams) (p : EngineParams) (env : EngineEnv) (opp : SpreadOpportunity)
        (size f : Int),
      calculatePositionSize riskP opp env.availableBalance = size →
      ¬ size ≤ 0 → ¬ env.canTrade = false →
      env.buyWait = FillResult.timeout →
      env.buyReadAfterCancel.getD 0 = f → 0 < f →
      env.exitWait = FillResult.filled →
      (executeSpreadTrade riskP p env opp).1.grossPnl =
          (opp.askPrice - opp.bidPrice) * f ∧
        (executeSpreadTrade riskP p env opp).1.fees = f * 2 ∧
        (executeSpreadTrade riskP p env opp).1.netPnl =
          (opp.askPrice - opp.bidPrice) * f - f * 2) := by
  refine ⟨fun r q => ⟨rfl, rfl, rfl⟩, ⟨by decide, by decide, by decide⟩, ?_, ?_, ?_⟩
  · intro riskP p env opp size fq hsz hfq hsize hct hb1 hb2 hb3 hs1 hs23
    rw [executeSpreadTrade_normal_eq riskP p env opp size fq hsz hfq hsize hct hb1 hb2 hb3
      hs1 hs23]
    exact ⟨rfl, rfl, rfl⟩
  · intro riskP p env opp size fq sold hsz hfq hsold hsize hct hb1 hb2 hb3 hs1 hspos
    rw [executeSpreadTrade_partialSell_eq riskP p env opp size fq sold hsz hfq hsold hsize
      hct hb1 hb2 hb3 hs1 hspos]
    exact ⟨rfl, rfl, rfl⟩
  · intro riskP p env opp size f hsz hsize hct htw hf hfpos hexit
    rw [executeSpreadTrade_buyTimeoutPartial_eq riskP p env opp size f hsz hsize hct htw hf
      hfpos, exitPartial_filled_eq _ _ _ _ _ hexit]
    exact ⟨rfl, rfl, rfl⟩

/-- An environment in which the sell leg times out with 4 of 10 contracts
sold. -/
def cexEnvPartialSell : EngineEnv :=
  { availableBalance := 10000
    canTrade := true
    canReason := "OK"
    buyOrderId := "B1"
    buyWait := FillResult.filled
    buyReadAfterCancel := none
    buyReadAfterWait := some 10
    sellOrderId := "S1"
    sellWait := FillResult.timeout
    sellReadAfterCancel := some 4
    exitWait := FillResult.filled }

/-- Witness for C8: the three engine paths at concrete inputs, each with
the 5 cent spread of the opportunity (bid 10, ask 15): net 3 cents per
contract. -/
theorem C8_pnl_semantics_witness :
    ((executeSpreadTrade cexParams cexEngineParams cexEnv cexOpp).1.grossPnl =
        (15 - 10) * 5 ∧
      (executeSpreadTrade cexParams cexEngineParams cexEnv cexOpp).1.fees = 5 * 2 ∧
      (executeSpreadTrade cexParams cexEngineParams cexEnv cexOpp).1.netPnl =
        (15 - 10) * 5 - 5 * 2) ∧
    ((executeSpreadTrade cexParams cexEngineParams cexEnvPartialSell cexOpp).1.grossPnl =
        (15 - 10) * 4 ∧
      (executeSpreadTrade cexParams cexEngineParams cexEnvPartialSell cexOpp).1.fees =
        4 * 2 ∧
      (executeSpreadTrade cexParams cexEngineParams cexEnvPartialSell cexOpp).1.netPnl =
        (15 - 10) * 4 - 4 * 2) ∧
    ((executeSpreadTrade cexParams cexEngineParams cexEnvExit cexOpp).1.grossPnl =
        (15 - 10) * 3 ∧
      (executeSpreadTrade cexParams cexEngineParams cexEnvExit cexOpp).1.fees = 3 * 2 ∧
      (executeSpreadTrade cexParams cexEngineParams cexEnvExit cexOpp).1.netPnl =
        (15 - 10) * 3 - 3 * 2) :=
  ⟨C8_pnl_semantics.2.2.1 cexParams cexEngineParams cexEnv cexOpp
      (calculatePositionSize cexParams cexOpp 10000) 5 rfl rfl cexSizePos (by decide)
      (by decide) (by decide) (by decide) (by decide) (by decide),
   C8_pnl_semantics.2.2.2.1 cexParams cexEngineParams cexEnvPartialSell cexOpp
      (calculatePositionSize cexParams cexOpp 10000) 10 4 rfl rfl rfl cexSizePos
      (by decide) (by decide) (by decide) (by decide) (by decide) (by decide),
   C8_pnl_semantics.2.2.2.2 cexParams cexEngineParams cexEnvExit cexOpp
      (calculatePositionSize cexParams cexOpp 10000) 3 rfl cexSizePos (by decide)
      (by decide) rfl (by decide) (by decide)⟩
